import Mathlib

/- Shallow embedding of the unimotion-rs serial-protocol layer
   (src/unimotion/device.rs, src/unimotion/manager.rs, src/lib.rs).

   Conventions:
   * Rust byte values are `Nat` (kept below 256 by the producers that matter);
     machine-integer reinterpretation is explicit (`asI16`).
   * Rust strings are `List Char`; `byteLen` is the UTF-8 byte count that
     Rust's `str::len` returns.
   * A Rust function that can panic is embedded as an `Option`-valued
     function where `none` denotes the panic.
   * Fallible Rust `Result` values become `Except`. -/

namespace Unimotion

/- Decidable equality for `Except`, so that concrete parser results can be
   checked by `decide`. -/
instance {ε α : Type} [DecidableEq ε] [DecidableEq α] : DecidableEq (Except ε α) :=
  fun a b =>
    match a, b with
    | .ok x, .ok y =>
        if h : x = y then .isTrue (by rw [h]) else .isFalse (by intro hc; cases hc; exact h rfl)
    | .error x, .error y =>
        if h : x = y then .isTrue (by rw [h]) else .isFalse (by intro hc; cases hc; exact h rfl)
    | .ok _, .error _ => .isFalse (by intro hc; cases hc)
    | .error _, .ok _ => .isFalse (by intro hc; cases hc)

/- `x as i16` on a value congruent to `x` modulo 2^16: the representative in
   [-32768, 32768). Also used for wrapping 16-bit arithmetic. -/
def asI16 (n : Int) : Int := (n + 32768) % 65536 - 32768

/- The 6-byte hardware address from the `macaddr` dependency. -/
structure MacAddr6 where
  b0 : Nat
  b1 : Nat
  b2 : Nat
  b3 : Nat
  b4 : Nat
  b5 : Nat
deriving DecidableEq, Repr

def MacAddr6.nil : MacAddr6 := ⟨0, 0, 0, 0, 0, 0⟩

def MacAddr6.isNil (a : MacAddr6) : Bool := decide (a = MacAddr6.nil)

def hexDigitVal (c : Char) : Option Nat :=
  let n := c.toNat
  if 48 ≤ n ∧ n ≤ 57 then some (n - 48)
  else if 65 ≤ n ∧ n ≤ 70 then some (n - 55)
  else if 97 ≤ n ∧ n ≤ 102 then some (n - 87)
  else none

/- The 22 ASCII hexadecimal digit characters. -/
def hexDigitChars : List Char := "0123456789abcdefABCDEF".data

/- Assemble an address from exactly twelve hexadecimal digit characters. -/
def hexBytes6 (l : List Char) : Option MacAddr6 :=
  match l.mapM hexDigitVal with
  | some [h0, h1, h2, h3, h4, h5, h6, h7, h8, h9, h10, h11] =>
      some ⟨h0 * 16 + h1, h2 * 16 + h3, h4 * 16 + h5,
            h6 * 16 + h7, h8 * 16 + h9, h10 * 16 + h11⟩
  | _ => none

/- A separator character of the pair-delimited address format. -/
def isSepChar (c : Char) : Bool := decide (c = ':' ∨ c = '-')

/- Models the `macaddr` dependency's `MacAddr6::from_str`, which dispatches
   on the string length and accepts the crate's address formats: six hex
   pairs separated by ':' or '-' (length 17), three four-digit groups
   separated by '.' (length 14), and twelve bare hex digits (length 12);
   any other length is rejected. -/
def MacAddr6.fromStr (s : List Char) : Option MacAddr6 :=
  match s with
  | [a1, a2, d1, b1, b2, d2, c1, c2, d3, e1, e2, d4, f1, f2, d5, g1, g2] =>
      if isSepChar d1 ∧ isSepChar d2 ∧ isSepChar d3 ∧ isSepChar d4 ∧ isSepChar d5 then
        hexBytes6 [a1, a2, b1, b2, c1, c2, e1, e2, f1, f2, g1, g2]
      else none
  | [a1, a2, b1, b2, d1, c1, c2, e1, e2, d2, f1, f2, g1, g2] =>
      if d1 = '.' ∧ d2 = '.' then
        hexBytes6 [a1, a2, b1, b2, c1, c2, e1, e2, f1, f2, g1, g2]
      else none
  | [a1, a2, b1, b2, c1, c2, e1, e2, f1, f2, g1, g2] =>
      hexBytes6 [a1, a2, b1, b2, c1, c2, e1, e2, f1, f2, g1, g2]
  | _ => none

/- device.rs: `pub struct Quaternion` (four signed 16-bit components). -/
structure Quaternion where
  x : Int
  y : Int
  z : Int
  w : Int
deriving DecidableEq, Repr

/- device.rs: `impl From<[u8; 8]> for Quaternion`.  Wire order W,Y,Z,X,
   little-endian 16-bit each; the z component is negated.  The negation
   `-(z as i16)` is embedded with release-build (wrapping) semantics:
   at `z = 0x8000` the result wraps back to -32768 (a debug build would
   instead panic with a negation overflow). -/
def Quaternion.fromBytes (value : List Nat) : Quaternion :=
  let w : Nat := value.getD 0 0 + value.getD 1 0 * 256
  let y : Nat := value.getD 2 0 + value.getD 3 0 * 256
  let z : Nat := value.getD 4 0 + value.getD 5 0 * 256
  let x : Nat := value.getD 6 0 + value.getD 7 0 * 256
  { x := asI16 x, y := asI16 y, z := asI16 (-(asI16 z)), w := asI16 w }

/- device.rs: `pub struct SensorInfo`. -/
structure SensorInfo where
  sensor_version : Nat
  mystery_value : Nat
  mac_address : MacAddr6
  channel : Nat
  tx_power : Nat
  datamode : Nat
  six_axis : Bool
  imu_flip : Bool
  min_mag_th : Nat
  max_mag_th : Nat
deriving DecidableEq, Repr

/- device.rs: `impl From<[u8; 19]> for SensorInfo` (no thresholds on the
   wire; both default to 255). -/
def SensorInfo.from19 (value : List Nat) : SensorInfo :=
  { sensor_version := value.getD 0 0
    mystery_value := value.getD 1 0
    mac_address := ⟨value.getD 2 0, value.getD 3 0, value.getD 4 0,
                    value.getD 5 0, value.getD 6 0, value.getD 7 0⟩
    channel := value.getD 8 0
    tx_power := value.getD 9 0
    datamode := value.getD 11 0
    six_axis := (value.getD 17 0) &&& 1 != 0
    imu_flip := (value.getD 18 0) &&& 1 != 0
    min_mag_th := 255
    max_mag_th := 255 }

/- device.rs: `impl From<[u8; 23]> for SensorInfo` (thresholds at bytes
   21 and 22). -/
def SensorInfo.from23 (value : List Nat) : SensorInfo :=
  { sensor_version := value.getD 0 0
    mystery_value := value.getD 1 0
    mac_address := ⟨value.getD 2 0, value.getD 3 0, value.getD 4 0,
                    value.getD 5 0, value.getD 6 0, value.getD 7 0⟩
    channel := value.getD 8 0
    tx_power := value.getD 9 0
    datamode := value.getD 11 0
    six_axis := (value.getD 17 0) &&& 1 != 0
    imu_flip := (value.getD 18 0) &&& 1 != 0
    min_mag_th := value.getD 21 0
    max_mag_th := value.getD 22 0 }

/- device.rs: `pub struct Datagram`.  The Rust field is a 4-slot array of
   optional quaternions; it is embedded as a 4-element list. -/
structure Datagram where
  id : Nat
  battery_voltage : Nat
  quaternions : List (Option Quaternion)
  ahrs_enable : Nat
  magnetic_power : Nat
deriving DecidableEq, Repr

/- device.rs: `pub enum AcknowledgeType`. -/
inductive AcknowledgeType where
  | Alive
  | RestartAP
  | StartWifi
  | QuitConfig
deriving DecidableEq, Repr

/- device.rs: `pub enum Response`. -/
inductive Response where
  | SensorInfo : Nat → Unimotion.SensorInfo → Response
  | Device : Nat → MacAddr6 → Response
  | Channel : Nat → Response
  | AutoOff : Nat → Nat → Response
  | Acknowledge : AcknowledgeType → Response
  | Datamode : Nat → Response
  | Data : Datagram → Response
  | Error : Response
deriving DecidableEq, Repr

/- device.rs: `pub struct UniSensorDevice` and `UniSensorDevice::empty`. -/
structure UniSensorDevice where
  id : Nat
  mac_addr : MacAddr6
  sensor_info : Option SensorInfo
deriving DecidableEq, Repr

def UniSensorDevice.empty : UniSensorDevice := ⟨255, MacAddr6.nil, none⟩

/- Unicode `White_Space` code points: the set Rust's `char::is_whitespace`
   (hence `str::trim` and `str::trim_start`) recognises. -/
def isRustWhitespace (c : Char) : Bool :=
  [9, 10, 11, 12, 13, 32, 0x85, 0xA0, 0x1680,
   0x2000, 0x2001, 0x2002, 0x2003, 0x2004, 0x2005, 0x2006, 0x2007,
   0x2008, 0x2009, 0x200A, 0x2028, 0x2029, 0x202F, 0x205F, 0x3000].contains c.toNat

def trimStart (s : List Char) : List Char := s.dropWhile isRustWhitespace

def trimEnd (s : List Char) : List Char := (s.reverse.dropWhile isRustWhitespace).reverse

def trim (s : List Char) : List Char := trimEnd (trimStart s)

/- Rust `str::split(' ')`: split on every space, keeping empty pieces;
   always yields at least one piece. -/
def splitSpace : List Char → List (List Char)
  | [] => [[]]
  | c :: rest =>
      let r := splitSpace rest
      if c = ' ' then [] :: r
      else (c :: r.headD []) :: r.tail

/- UTF-8 size of one scalar value; `byteLen` is Rust's `str::len`. -/
def charUtf8Size (c : Char) : Nat :=
  if c.toNat < 128 then 1
  else if c.toNat < 2048 then 2
  else if c.toNat < 65536 then 3
  else 4

def byteLen (s : List Char) : Nat := (s.map charUtf8Size).sum

def isAsciiDigit (c : Char) : Bool := decide (48 ≤ c.toNat ∧ c.toNat ≤ 57)

def digitsVal (l : List Char) : Nat := l.foldl (fun acc c => acc * 10 + (c.toNat - 48)) 0

/- Models Rust `u8::from_str` / `u64::from_str`: an optional leading plus
   sign, then one or more ASCII digits; the checked accumulation succeeds
   exactly when the value fits the bound. -/
def parseUnsigned (bound : Nat) (s : List Char) : Option Nat :=
  let digits := match s with
    | '+' :: t => t
    | t => t
  if digits.isEmpty then none
  else if digits.all isAsciiDigit then
    if digitsVal digits ≤ bound then some (digitsVal digits) else none
  else none

/- Models the `base64` dependency's `general_purpose::STANDARD` alphabet:
   value of one symbol byte. -/
def b64val (c : Char) : Option Nat :=
  let n := c.toNat
  if 65 ≤ n ∧ n ≤ 90 then some (n - 65)
  else if 97 ≤ n ∧ n ≤ 122 then some (n - 71)
  else if 48 ≤ n ∧ n ≤ 57 then some (n + 4)
  else if n = 43 then some 62
  else if n = 47 then some 63
  else none

/- Reassemble bytes from 6-bit symbol values; a final quantum of two or
   three symbols must have zero unused trailing bits
   (`decode_allow_trailing_bits` is false in the STANDARD engine). -/
def b64decodeVals : List Nat → Option (List Nat)
  | [] => some []
  | [a, b] => if b % 16 = 0 then some [a * 4 + b / 16] else none
  | [a, b, c] =>
      if c % 4 = 0 then some [a * 4 + b / 16, b % 16 * 16 + c / 4] else none
  | a :: b :: c :: d :: rest =>
      match b64decodeVals rest with
      | some tail => some ((a * 4 + b / 16) :: (b % 16 * 16 + c / 4) :: (c % 4 * 64 + d) :: tail)
      | none => none
  | [_] => none

/- Symbol values of a run of base64 content characters (`none` as soon as
   one character is outside the alphabet; padding is not in the alphabet). -/
def b64vals : List Char → Option (List Nat)
  | [] => some []
  | c :: rest =>
    match b64val c, b64vals rest with
    | some v, some vs => some (v :: vs)
    | _, _ => none

/- Strip up to two trailing padding characters, returning the remaining
   content and the number stripped. -/
def splitPad (s : List Char) : List Char × Nat :=
  match s.reverse with
  | [] => (s, 0)
  | [c1] => if c1 = '=' then ([], 1) else (s, 0)
  | c1 :: c2 :: t =>
      if c1 = '=' then
        if c2 = '=' then (t.reverse, 2) else ((c2 :: t).reverse, 1)
      else (s, 0)

/- Models `general_purpose::STANDARD.decode`: canonical padding required
   (length a multiple of four, at most two trailing `=`, no `=` elsewhere),
   zero trailing bits in the final quantum. -/
def b64decode (s : List Char) : Option (List Nat) :=
  if s.length % 4 ≠ 0 then none
  else match b64vals (splitPad s).1 with
    | none => none
    | some vals => b64decodeVals vals

def replChar : Char := Char.ofNat 0xFFFD

def isCont (b : Nat) : Bool := decide (128 ≤ b ∧ b ≤ 191)

/- Valid second byte of a three-byte sequence for the given lead byte. -/
def utf8Second3Ok (b c1 : Nat) : Bool :=
  if b = 224 then decide (160 ≤ c1 ∧ c1 ≤ 191)
  else if b = 237 then decide (128 ≤ c1 ∧ c1 ≤ 159)
  else isCont c1

/- Valid second byte of a four-byte sequence for the given lead byte. -/
def utf8Second4Ok (b c1 : Nat) : Bool :=
  if b = 240 then decide (144 ≤ c1 ∧ c1 ≤ 191)
  else if b = 244 then decide (128 ≤ c1 ∧ c1 ≤ 143)
  else isCont c1

/- Models Rust `String::from_utf8_lossy`: well-formed sequences decode to
   their scalar value; each maximal invalid subpart (of one, two or three
   bytes, per the validation's error length) and each broken tail becomes
   one U+FFFD replacement character. -/
def utf8Lossy : List Nat → List Char
  | [] => []
  | b :: rest =>
    if b < 128 then Char.ofNat b :: utf8Lossy rest
    else if 194 ≤ b ∧ b ≤ 223 then
      match rest with
      | [] => [replChar]
      | c1 :: rest1 =>
        if isCont c1 then Char.ofNat ((b - 192) * 64 + (c1 - 128)) :: utf8Lossy rest1
        else replChar :: utf8Lossy (c1 :: rest1)
    else if 224 ≤ b ∧ b ≤ 239 then
      match rest with
      | [] => [replChar]
      | c1 :: rest1 =>
        if utf8Second3Ok b c1 then
          match rest1 with
          | [] => [replChar]
          | c2 :: rest2 =>
            if isCont c2 then
              Char.ofNat (((b - 224) * 64 + (c1 - 128)) * 64 + (c2 - 128)) :: utf8Lossy rest2
            else replChar :: utf8Lossy (c2 :: rest2)
        else replChar :: utf8Lossy (c1 :: rest1)
    else if 240 ≤ b ∧ b ≤ 244 then
      match rest with
      | [] => [replChar]
      | c1 :: rest1 =>
        if utf8Second4Ok b c1 then
          match rest1 with
          | [] => [replChar]
          | c2 :: rest2 =>
            if isCont c2 then
              match rest2 with
              | [] => [replChar]
              | c3 :: rest3 =>
                if isCont c3 then
                  Char.ofNat ((((b - 240) * 64 + (c1 - 128)) * 64 + (c2 - 128)) * 64 + (c3 - 128))
                    :: utf8Lossy rest3
                else replChar :: utf8Lossy (c3 :: rest3)
            else replChar :: utf8Lossy (c2 :: rest2)
        else replChar :: utf8Lossy (c1 :: rest1)
    else replChar :: utf8Lossy rest

/- device.rs `parsing::parse_si`: `<id> <base64 of 19|23 bytes>`. -/
def parse_si (line : List Char) : Except (List Char) (Nat × SensorInfo) :=
  let v := splitSpace line
  if v.length ≠ 2 then .error line
  else match parseUnsigned 255 (v.getD 0 []) with
  | none => .error line
  | some id =>
    match b64decode (v.getD 1 []) with
    | none => .error line
    | some bytes =>
      if bytes.length = 19 then .ok (id, SensorInfo.from19 (bytes.take 19))
      else if bytes.length = 23 then .ok (id, SensorInfo.from23 (bytes.take 23))
      else .error line

/- device.rs `parsing::parse_dev`: a hex token shorter than two characters
   is zero-padded on the left before the six tokens are concatenated. -/
def padHexToken (t : List Char) : List Char := if t.length < 2 then '0' :: t else t

def parse_dev (line : List Char) : Except (List Char) (Nat × MacAddr6) :=
  let v := splitSpace line
  if v.length ≠ 7 then .error line
  else match parseUnsigned 255 (v.getD 0 []) with
  | none => .error line
  | some id =>
    let addr := ((v.drop 1).map padHexToken).flatten
    match MacAddr6.fromStr addr with
    | none => .error line
    | some a => .ok (id, a)

/- device.rs `parsing::parse_ch`. -/
def parse_ch (line : List Char) : Except (List Char) Nat :=
  match parseUnsigned 255 line with
  | some ch => .ok ch
  | none => .error line

/- device.rs `parsing::parse_auto_off`: `<u8> <u64>`. -/
def parse_auto_off (line : List Char) : Except (List Char) (Nat × Nat) :=
  let v := splitSpace line
  if v.length ≠ 2 then .error line
  else match parseUnsigned 255 (v.getD 0 []), parseUnsigned 18446744073709551615 (v.getD 1 []) with
  | some a, some b => .ok (a, b)
  | _, _ => .error line

/- device.rs `parsing::parse_ok`. -/
def parse_ok (line : List Char) : Except (List Char) AcknowledgeType :=
  if line = [] then .ok .Alive
  else if line = "ESP_RESTART".data then .ok .RestartAP
  else if line = "WIFI_ON".data then .ok .StartWifi
  else if line = "QUIT_CONFIG".data then .ok .QuitConfig
  else .error line

/- device.rs `parsing::parse_datamode`. -/
def parse_datamode (line : List Char) : Except (List Char) Nat :=
  match parseUnsigned 255 line with
  | some dm => .ok dm
  | none => .error line

/- device.rs `impl Parseable<[u8; 10|12|18|34|36]> for Datagram`: five
   recognised telemetry shapes whose decoders are explicit stubs. -/
def Datagram.parseData10 (_ : List Nat) : Except (List Char) Datagram :=
  .error ("Not implemented".data)

def Datagram.parseData12 (_ : List Nat) : Except (List Char) Datagram :=
  .error ("Not implemented".data)

def Datagram.parseData18 (_ : List Nat) : Except (List Char) Datagram :=
  .error ("Not implemented".data)

/- device.rs `impl Parseable<[u8; 20]> for Datagram`: the implemented shape. -/
def Datagram.parseData20 (value : List Nat) : Except (List Char) Datagram :=
  .ok { id := value.getD 0 0
        battery_voltage := value.getD 1 0
        quaternions := [some (Quaternion.fromBytes ((value.drop 2).take 8)),
                        some (Quaternion.fromBytes ((value.drop 10).take 8)),
                        none, none]
        ahrs_enable := value.getD 18 0
        magnetic_power := value.getD 19 0 }

def Datagram.parseData34 (_ : List Nat) : Except (List Char) Datagram :=
  .error ("Not implemented".data)

def Datagram.parseData36 (_ : List Nat) : Except (List Char) Datagram :=
  .error ("Not implemented".data)

/- One base64 telemetry arm of `parse`: decode `padded`, slice the first
   `n` bytes (Rust `bytes[..n]` panics — `none` — when fewer were decoded),
   and hand them to the shape's datagram decoder. -/
def b64arm (line padded : List Char) (n : Nat) (k : List Nat → Except (List Char) Datagram) :
    Option (Except (List Char) Response) :=
  match b64decode padded with
  | none => some (.error line)
  | some bytes =>
      if n ≤ bytes.length then some ((k (bytes.take n)).map Response.Data) else none

/- device.rs `parsing::parse`: dispatch on the first space-separated word
   for command echoes, otherwise on the line's byte length for base64
   telemetry.  `none` denotes a Rust panic. -/
def parse (line : List Char) : Option (Except (List Char) Response) :=
  let words := splitSpace line
  let w0 := words.headD []
  if w0 = "_si".data then
    some ((parse_si (trimStart (line.drop 3))).map (fun p => Response.SensorInfo p.1 p.2))
  else if w0 = "_dev".data then
    some ((parse_dev (trimStart (line.drop 4))).map (fun p => Response.Device p.1 p.2))
  else if w0 = "_ch".data then
    some ((parse_ch (trimStart (line.drop 3))).map Response.Channel)
  else if w0 = "_auto_off".data then
    some ((parse_auto_off (trimStart (line.drop 9))).map (fun p => Response.AutoOff p.1 p.2))
  else if w0 = "_ok".data then
    some ((parse_ok (trimStart (line.drop 3))).map Response.Acknowledge)
  else if w0 = "_datamode".data then
    some ((parse_datamode (trimStart (line.drop 9))).map Response.Datamode)
  else if byteLen line = 14 then b64arm line (line ++ "==".data) 10 Datagram.parseData10
  else if byteLen line = 16 then b64arm line line 12 Datagram.parseData12
  else if byteLen line = 24 then b64arm line line 18 Datagram.parseData18
  else if byteLen line = 27 then b64arm line (line ++ "=".data) 20 Datagram.parseData20
  else if byteLen line = 46 then b64arm line (line ++ "==".data) 34 Datagram.parseData34
  else if byteLen line = 48 then b64arm line line 36 Datagram.parseData36
  else some (.error line)

/- device.rs `impl From<Vec<u8>> for Response`: lossy-decode the buffer,
   trim it, parse, and absorb parse errors into `Response::Error`.
   `none` denotes a Rust panic escaping `parse`. -/
def Response.fromBytes (buffer : List Nat) : Option Response :=
  match parse (trim (utf8Lossy buffer)) with
  | none => none
  | some (.ok r) => some r
  | some (.error _) => some Response.Error

/- manager.rs: `pub const MAX_UNISENSOR_COUNT: usize = 24`. -/
def MAX_UNISENSOR_COUNT : Nat := 24

/- manager.rs: `pub enum Command` and its `as_str` encoding. -/
inductive Command where
  | RestartAP
  | Alive
  | ListSensor
  | StartWifi
  | QuitConfig
  | RequestSensorInfo : Nat → Command
  | AliveNoResponse
  | EnableAhrs : Nat → Command
  | DisableAhrs : Nat → Command
  | Set60FPS : Nat → Command
  | Set60FPSLowPower : Nat → Command
  | Set70FPS : Nat → Command
  | Set144FPS : Nat → Command
  | PowerOffSensor : Nat → Command
  | RestartSensor : Nat → Command
  | StartMagneticCalibration : Nat → Command
  | StopMagneticCalibration : Nat → Command
  | SetMagneticThreshold : Nat → Nat → Nat → Command
  | SensorConfig : Nat → Command
  | Config : Nat → Command
  | InitializeCalibration : Nat → Command
  | Restart : Nat → Command
  | SavePairing
deriving DecidableEq, Repr

def Command.asStr : Command → List Char
  | .RestartAP => "_aprestart".data
  | .Alive => "_alive".data
  | .ListSensor => "_sensorlist".data
  | .StartWifi => "_wifistart".data
  | .QuitConfig => "_quitconfig".data
  | .RequestSensorInfo id => "__sensinfo id:".data ++ (toString id).data ++ ":b".data
  | .AliveNoResponse => "_alive_nores".data
  | .EnableAhrs id => "_setahrsmode id:".data ++ (toString id).data ++ ":b 0".data
  | .DisableAhrs id => "_setahrsmode id:".data ++ (toString id).data ++ ":b 1".data
  | .Set60FPS id => "_setmode id:".data ++ (toString id).data ++ ":b 3 2 0 4".data
  | .Set60FPSLowPower id => "_setmode id:".data ++ (toString id).data ++ ":b 4 2 11 4".data
  | .Set70FPS id => "_setmode id:".data ++ (toString id).data ++ ":b 0 9 19 0".data
  | .Set144FPS id => "_setmode id:".data ++ (toString id).data ++ ":b 2 4 30 4".data
  | .PowerOffSensor id => "_sensoff id:".data ++ (toString id).data ++ ":b".data
  | .RestartSensor id => "_restart id:".data ++ (toString id).data ++ ":b".data
  | .StartMagneticCalibration id => "_start_mag_calib id:".data ++ (toString id).data ++ ":b".data
  | .StopMagneticCalibration id => "_stop_mag_calib id:".data ++ (toString id).data ++ ":b".data
  | .SetMagneticThreshold id mn mx =>
      "_set_mag_th id:".data ++ (toString id).data ++ ":b ".data
        ++ (toString mn).data ++ " ".data ++ (toString mx).data
  | .SensorConfig id => "_sensconf id:".data ++ (toString id).data ++ ":b".data
  | .Config _ => "_config".data
  | .InitializeCalibration id => "_initcalibration id:".data ++ (toString id).data
  | .Restart id => "_restart id:".data ++ (toString id).data
  | .SavePairing => "_savepairing".data

/- lib.rs: the error kinds `begin` can produce (`PlaceholderError::
   UnexpectedAckError` wrapped into `UnimotionError::PlaceholderError`,
   and `UnimotionError::CrossbeamChannelError`). -/
inductive UnimotionError where
  | UnexpectedAck : AcknowledgeType → AcknowledgeType → UnimotionError
  | CrossbeamChannel : UnimotionError
deriving DecidableEq, Repr

/- The receiver queues a caller can block on. -/
inductive QueueKind where
  | ack
  | channel
  | datamode
  | autoOff
  | device
deriving DecidableEq, Repr

/- Environment of one `begin` run: for each queue, the prescribed sequence
   of outcomes of successive `recv_timeout` calls (`some v` = a value
   arrived in time, `none` = that call timed out; an exhausted trace also
   times out). -/
structure Env where
  ackTrace : List (Option AcknowledgeType)
  channelTrace : List (Option Nat)
  datamodeTrace : List (Option Nat)
  autoOffTrace : List (Option (Nat × Nat))
  deviceTrace : List (Option (Nat × MacAddr6))
deriving DecidableEq, Repr

def recvAck (e : Env) : Option AcknowledgeType × Env :=
  match e.ackTrace with
  | [] => (none, e)
  | o :: rest => (o, { e with ackTrace := rest })

def recvChannel (e : Env) : Option Nat × Env :=
  match e.channelTrace with
  | [] => (none, e)
  | o :: rest => (o, { e with channelTrace := rest })

def recvDatamode (e : Env) : Option Nat × Env :=
  match e.datamodeTrace with
  | [] => (none, e)
  | o :: rest => (o, { e with datamodeTrace := rest })

def recvAutoOff (e : Env) : Option (Nat × Nat) × Env :=
  match e.autoOffTrace with
  | [] => (none, e)
  | o :: rest => (o, { e with autoOffTrace := rest })

def recvDevice (e : Env) : Option (Nat × MacAddr6) × Env :=
  match e.deviceTrace with
  | [] => (none, e)
  | o :: rest => (o, { e with deviceTrace := rest })

/- manager.rs `UnimotionManager::get_devices_timeout`: receive with the
   given timeout until 24 values were stored or one call timed out (which
   aborts the whole call with `Err`); each received `(id, addr)` is stored
   at `res[id]`, which in Rust is an unguarded index into a 24-element
   array — `none` denotes that panic.  The fuel argument is the number of
   values still to receive; the timeout log records every await. -/
def getDevicesLoop (timeout : Nat) :
    Nat → Env → List (QueueKind × Nat) → List (Nat × MacAddr6) →
    Option (Except Unit (List (Nat × MacAddr6)) × Env × List (QueueKind × Nat))
  | 0, e, log, res => some (.ok res, e, log)
  | n + 1, e, log, res =>
    match recvDevice e with
    | (none, e1) => some (.error (), e1, log ++ [(.device, timeout)])
    | (some (id, addr), e1) =>
        if id < MAX_UNISENSOR_COUNT then
          getDevicesLoop timeout n e1 (log ++ [(.device, timeout)]) (res.set id (id, addr))
        else none

def initDeviceRes : List (Nat × MacAddr6) :=
  List.replicate MAX_UNISENSOR_COUNT (255, MacAddr6.nil)

def getDevicesTimeout (timeout : Nat) (e : Env) :
    Option (Except Unit (List (Nat × MacAddr6)) × Env × List (QueueKind × Nat)) :=
  getDevicesLoop timeout MAX_UNISENSOR_COUNT e [] initDeviceRes

/- manager.rs `UnimotionManager::get_devices` (the blocking variant, whose
   receive fails only when the channel is disconnected; `none` on the trace
   plays that role here). -/
def getDevicesBlocking :
    Nat → List (Option (Nat × MacAddr6)) → List (Nat × MacAddr6) →
    Option (Except Unit (List (Nat × MacAddr6)) × List (Option (Nat × MacAddr6)))
  | 0, tr, res => some (.ok res, tr)
  | n + 1, tr, res =>
    match tr with
    | [] => some (.error (), [])
    | none :: rest => some (.error (), rest)
    | some (id, addr) :: rest =>
        if id < MAX_UNISENSOR_COUNT then
          getDevicesBlocking n rest (res.set id (id, addr))
        else none

def getDevices (tr : List (Option (Nat × MacAddr6))) :
    Option (Except Unit (List (Nat × MacAddr6)) × List (Option (Nat × MacAddr6))) :=
  getDevicesBlocking MAX_UNISENSOR_COUNT tr initDeviceRes

/- manager.rs `begin`, device-population loop: every returned entry with a
   non-nil address is written into `self.sensors[id]` (again an unguarded
   index into a 24-element array; `none` denotes the panic). -/
def populateDevices : List UniSensorDevice → List (Nat × MacAddr6) → Option (List UniSensorDevice)
  | st, [] => some st
  | st, (id, addr) :: rest =>
      if addr.isNil then populateDevices st rest
      else if id < MAX_UNISENSOR_COUNT then
        populateDevices (st.set id ⟨id, addr, none⟩) rest
      else none

/- Observable trace of one `begin` run: commands written to the serial
   port, awaits performed (queue and timeout in milliseconds), the device
   table afterwards, and the unconsumed environment. -/
structure BeginLog where
  written : List (List Char)
  awaited : List (QueueKind × Nat)
  sensors : List UniSensorDevice
  env : Env
deriving DecidableEq, Repr

/- manager.rs `begin`, steps 6-8: send Alive / StartWifi / QuitConfig and
   expect the matching acknowledge after each, aborting on the first
   mismatch or timeout.  `aw` is the await log accumulated so far; the
   device table is no longer touched. -/
def beginFinalAcks (e : Env) (aw : List (QueueKind × Nat)) (sensors : List UniSensorDevice) :
    Option (Except UnimotionError Unit × BeginLog) :=
  let w2 := [Command.asStr .RestartAP, Command.asStr .Alive]
  let aw5 := aw ++ [(QueueKind.ack, 500)]
  match recvAck e with
  | (none, e6) => some (.error .CrossbeamChannel, ⟨w2, aw5, sensors, e6⟩)
  | (some .Alive, e6) =>
    let w3 := w2 ++ [Command.asStr .StartWifi]
    let aw6 := aw5 ++ [(QueueKind.ack, 500)]
    match recvAck e6 with
    | (none, e7) => some (.error .CrossbeamChannel, ⟨w3, aw6, sensors, e7⟩)
    | (some .StartWifi, e7) =>
      let w4 := w3 ++ [Command.asStr .QuitConfig]
      let aw7 := aw6 ++ [(QueueKind.ack, 500)]
      match recvAck e7 with
      | (none, e8) => some (.error .CrossbeamChannel, ⟨w4, aw7, sensors, e8⟩)
      | (some .QuitConfig, e8) => some (.ok (), ⟨w4, aw7, sensors, e8⟩)
      | (some a4, e8) => some (.error (.UnexpectedAck .QuitConfig a4), ⟨w4, aw7, sensors, e8⟩)
    | (some a3, e7) => some (.error (.UnexpectedAck .StartWifi a3), ⟨w3, aw6, sensors, e7⟩)
  | (some a2, e6) => some (.error (.UnexpectedAck .Alive a2), ⟨w2, aw5, sensors, e6⟩)

/- manager.rs `UnimotionManager::begin`: the fixed initialization
   handshake.  Serial writes are modelled as always succeeding; `none`
   denotes a Rust panic (out-of-bounds device id). -/
def beginModel (e : Env) (sensors0 : List UniSensorDevice) :
    Option (Except UnimotionError Unit × BeginLog) :=
  let w1 := [Command.asStr .RestartAP]
  match recvAck e with
  | (none, e1) => some (.error .CrossbeamChannel, ⟨w1, [(.ack, 500)], sensors0, e1⟩)
  | (some .RestartAP, e1) =>
      match recvChannel e1 with
      | (none, e2) => some (.error .CrossbeamChannel, ⟨w1, [(.ack, 500), (.channel, 500)], sensors0, e2⟩)
      | (some _, e2) =>
        match recvDatamode e2 with
        | (none, e3) =>
            some (.error .CrossbeamChannel,
              ⟨w1, [(.ack, 500), (.channel, 500), (.datamode, 500)], sensors0, e3⟩)
        | (some _, e3) =>
          match recvAutoOff e3 with
          | (none, e4) =>
              some (.error .CrossbeamChannel,
                ⟨w1, [(.ack, 500), (.channel, 500), (.datamode, 500), (.autoOff, 500)], sensors0, e4⟩)
          | (some _, e4) =>
            let aw4 := [(QueueKind.ack, 500), (QueueKind.channel, 500),
                        (QueueKind.datamode, 500), (QueueKind.autoOff, 500)]
            match getDevicesTimeout 500 e4 with
            | none => none
            | some (.error _, e5, dlog) =>
                some (.error .CrossbeamChannel, ⟨w1, aw4 ++ dlog, sensors0, e5⟩)
            | some (.ok res, e5, dlog) =>
              match populateDevices sensors0 res with
              | none => none
              | some sensors1 => beginFinalAcks e5 (aw4 ++ dlog) sensors1
  | (some a1, e1) =>
      some (.error (.UnexpectedAck .RestartAP a1), ⟨w1, [(.ack, 500)], sensors0, e1⟩)

/- manager.rs `UnimotionManager::update`: pop the data queue (the Rust
   `unwrap` panics on a disconnected queue) and read
   `self.sensors[data.id]`, an unguarded index into the 24-element table;
   `none` denotes either panic. -/
def updateModel (sensors : List UniSensorDevice) (dataTrace : List (Option Datagram)) :
    Option ((UniSensorDevice × Datagram) × List (Option Datagram)) :=
  match dataTrace with
  | [] => none
  | none :: _ => none
  | some d :: rest =>
      if d.id < MAX_UNISENSOR_COUNT then
        some ((sensors.getD d.id UniSensorDevice.empty, d), rest)
      else none

/- ------------------------------------------------------------------ -/
/- Theorems.                                                           -/
/- ------------------------------------------------------------------ -/

theorem asI16_idem (n : Int) : asI16 (asI16 n) = asI16 n := by
  unfold asI16
  omega

theorem asI16_neg_eq (n : Int) :
    asI16 (-(asI16 n)) = if asI16 n = -32768 then -32768 else -(asI16 n) := by
  unfold asI16
  split <;> omega

/-- C1: the claim says `parse` is total and never panics on any input byte
sequence.  The code violates this: the ASCII line "AAAAAAAAAAAAAA==" has
length 16, its base64 decode succeeds with only 10 bytes (the embedded
canonical padding shortens the output), and the subsequent `bytes[..12]`
slice panics.  The model evaluates to `none` (= panic) at that input. -/
theorem response_from_panics_on_embedded_padding :
    Response.fromBytes [65, 65, 65, 65, 65, 65, 65, 65, 65, 65, 65, 65, 65, 65, 61, 61] =
      none := by
  rfl

/-- C2 (counterexample): the claim asserts `z_out = -z_raw` for every
8-byte input.  At the input whose z field is 0x8000 the raw signed value
is -32768, whose negation overflows 16 bits; the decoder returns -32768,
not 32768. -/
theorem decode_quaternion_z_negation_counterexample :
    (Quaternion.fromBytes [0, 0, 0, 0, 0, 128, 0, 0]).z ≠
      -(asI16 ((0 + 128 * 256 : Nat) : Int)) := by
  decide

/-- C2 (amended): for every 8-byte input, `Quaternion.fromBytes` is
deterministic and total and reads four little-endian u16 fields at offsets
0, 2, 4, 6 in wire order W, Y, Z, X reinterpreted as signed 16-bit; x, y
and w equal their raw decoded signed values, and the returned z component
is the 16-bit wrapping negation of the raw value: `z_out = -z_raw` except
at `z_raw = -32768`, where it stays -32768 (a debug build would panic
there). -/
theorem decode_quaternion_fields (v : List Nat) (hlen : v.length = 8)
    (hb : ∀ b ∈ v, b < 256) :
    Quaternion.fromBytes v =
      { x := asI16 ((v.getD 6 0 + v.getD 7 0 * 256 : Nat) : Int)
        y := asI16 ((v.getD 2 0 + v.getD 3 0 * 256 : Nat) : Int)
        z := if asI16 ((v.getD 4 0 + v.getD 5 0 * 256 : Nat) : Int) = -32768 then -32768
             else -(asI16 ((v.getD 4 0 + v.getD 5 0 * 256 : Nat) : Int))
        w := asI16 ((v.getD 0 0 + v.getD 1 0 * 256 : Nat) : Int) } := by
  unfold Quaternion.fromBytes
  simp only [Quaternion.mk.injEq]
  exact ⟨trivial, trivial, asI16_neg_eq _, trivial⟩

theorem decode_quaternion_fields_witness :
    ([29, 181, 238, 182, 236, 210, 126, 27] : List Nat).length = 8 ∧
    (∀ b ∈ ([29, 181, 238, 182, 236, 210, 126, 27] : List Nat), b < 256) ∧
    Quaternion.fromBytes [29, 181, 238, 182, 236, 210, 126, 27] =
      { x := asI16 ((([29, 181, 238, 182, 236, 210, 126, 27] : List Nat).getD 6 0
                      + ([29, 181, 238, 182, 236, 210, 126, 27] : List Nat).getD 7 0 * 256 : Nat) : Int)
        y := asI16 ((([29, 181, 238, 182, 236, 210, 126, 27] : List Nat).getD 2 0
                      + ([29, 181, 238, 182, 236, 210, 126, 27] : List Nat).getD 3 0 * 256 : Nat) : Int)
        z := if asI16 ((([29, 181, 238, 182, 236, 210, 126, 27] : List Nat).getD 4 0
                      + ([29, 181, 238, 182, 236, 210, 126, 27] : List Nat).getD 5 0 * 256 : Nat) : Int) = -32768
             then -32768
             else -(asI16 ((([29, 181, 238, 182, 236, 210, 126, 27] : List Nat).getD 4 0
                      + ([29, 181, 238, 182, 236, 210, 126, 27] : List Nat).getD 5 0 * 256 : Nat) : Int))
        w := asI16 ((([29, 181, 238, 182, 236, 210, 126, 27] : List Nat).getD 0 0
                      + ([29, 181, 238, 182, 236, 210, 126, 27] : List Nat).getD 1 0 * 256 : Nat) : Int) } :=
  ⟨by decide, by decide,
   decode_quaternion_fields [29, 181, 238, 182, 236, 210, 126, 27] (by decide) (by decide)⟩

/-- C4: `SensorInfo.from19` always yields both magnetic thresholds 255;
`SensorInfo.from23` takes them verbatim from bytes 21 and 22; and on
inputs agreeing on the first 19 bytes the two forms decode every other
field identically. -/
theorem decode_sensor_info_thresholds :
    (∀ v : List Nat, v.length = 19 →
      (SensorInfo.from19 v).min_mag_th = 255 ∧ (SensorInfo.from19 v).max_mag_th = 255) ∧
    (∀ v : List Nat, v.length = 23 →
      (SensorInfo.from23 v).min_mag_th = v.getD 21 0 ∧
      (SensorInfo.from23 v).max_mag_th = v.getD 22 0) ∧
    (∀ v w : List Nat, v.length = 23 → w.length = 19 →
      (∀ i, i < 19 → v.getD i 0 = w.getD i 0) →
      (SensorInfo.from23 v).sensor_version = (SensorInfo.from19 w).sensor_version ∧
      (SensorInfo.from23 v).mystery_value = (SensorInfo.from19 w).mystery_value ∧
      (SensorInfo.from23 v).mac_address = (SensorInfo.from19 w).mac_address ∧
      (SensorInfo.from23 v).channel = (SensorInfo.from19 w).channel ∧
      (SensorInfo.from23 v).tx_power = (SensorInfo.from19 w).tx_power ∧
      (SensorInfo.from23 v).datamode = (SensorInfo.from19 w).datamode ∧
      (SensorInfo.from23 v).six_axis = (SensorInfo.from19 w).six_axis ∧
      (SensorInfo.from23 v).imu_flip = (SensorInfo.from19 w).imu_flip) := by
  refine ⟨fun v _ => ⟨rfl, rfl⟩, fun v _ => ⟨rfl, rfl⟩, fun v w hv hw h => ?_⟩
  simp only [SensorInfo.from23, SensorInfo.from19, h 0 (by omega), h 1 (by omega),
    h 2 (by omega), h 3 (by omega), h 4 (by omega), h 5 (by omega), h 6 (by omega),
    h 7 (by omega), h 8 (by omega), h 9 (by omega), h 11 (by omega), h 17 (by omega),
    h 18 (by omega)]
  exact ⟨trivial, trivial, trivial, trivial, trivial, trivial, trivial, trivial⟩

theorem decode_sensor_info_thresholds_witness :
    ((SensorInfo.from19 [102, 78, 8, 58, 242, 109, 29, 152, 1, 10, 90, 3, 2, 0, 4, 0, 0, 0, 1]).min_mag_th = 255 ∧
     (SensorInfo.from19 [102, 78, 8, 58, 242, 109, 29, 152, 1, 10, 90, 3, 2, 0, 4, 0, 0, 0, 1]).max_mag_th = 255) ∧
    ((SensorInfo.from23 [102, 78, 8, 58, 242, 109, 29, 152, 1, 10, 90, 3, 2, 0, 4, 0, 0, 0, 1, 40, 8, 0, 124]).min_mag_th
        = ([102, 78, 8, 58, 242, 109, 29, 152, 1, 10, 90, 3, 2, 0, 4, 0, 0, 0, 1, 40, 8, 0, 124] : List Nat).getD 21 0 ∧
     (SensorInfo.from23 [102, 78, 8, 58, 242, 109, 29, 152, 1, 10, 90, 3, 2, 0, 4, 0, 0, 0, 1, 40, 8, 0, 124]).max_mag_th
        = ([102, 78, 8, 58, 242, 109, 29, 152, 1, 10, 90, 3, 2, 0, 4, 0, 0, 0, 1, 40, 8, 0, 124] : List Nat).getD 22 0) ∧
    ((SensorInfo.from23 [102, 78, 8, 58, 242, 109, 29, 152, 1, 10, 90, 3, 2, 0, 4, 0, 0, 0, 1, 40, 8, 0, 124]).sensor_version
        = (SensorInfo.from19 [102, 78, 8, 58, 242, 109, 29, 152, 1, 10, 90, 3, 2, 0, 4, 0, 0, 0, 1]).sensor_version) :=
  ⟨decode_sensor_info_thresholds.1 _ (by decide),
   decode_sensor_info_thresholds.2.1 _ (by decide),
   (decode_sensor_info_thresholds.2.2 _ _ (by decide) (by decide)
      (by decide)).1⟩

/-- C5 (counterexample): the claim says the `_dev` sub-parser accepts
exactly a decimal u8 id followed by six hex-byte tokens, and that any
other shape yields Response::Error.  The seven-token line
"_dev 2 AA :B B: CC :DD:EE: FF" has tokens that are not hex bytes, yet
its padded concatenation "AA:BB:CC:DD:EE:FF" is accepted by the
hardware-address parser's colon format, so parse yields
Device(2, AA:BB:CC:DD:EE:FF), not Error. -/
theorem parse_dev_nonhex_tokens_counterexample :
    parse ("_dev 2 AA :B B: CC :DD:EE: FF".data) =
      some (.ok (Response.Device 2 ⟨170, 187, 204, 221, 238, 255⟩)) := by
  decide

/-- C5 (amended): the `_dev` sub-parser accepts exactly seven
space-separated tokens, a decimal u8 id followed by six tokens; each
token shorter than two characters is zero-padded to width 2 before the
six are concatenated and handed to the hardware-address parser (shown
for every single hex digit in the first address position).  The two
concrete examples parse to Device(2, E8:68:E7:53:55:DE) and
Device(23, nil).  Because the address parser also accepts the macaddr
crate's separator formats, token shapes embedding ':' or '-' can be
accepted too (the line above).  A token count other than seven, an id
that does not parse as a decimal u8, or a concatenation no address
format accepts, yields Response::Error. -/
theorem parse_dev_spec :
    parse ("_dev 2 E8 68 E7 53 55 DE".data) =
      some (.ok (Response.Device 2 ⟨232, 104, 231, 83, 85, 222⟩)) ∧
    parse ("_dev 23 0 0 0 0 0 0".data) =
      some (.ok (Response.Device 23 MacAddr6.nil)) ∧
    parse ("_dev 2 AA :B B: CC :DD:EE: FF".data) =
      some (.ok (Response.Device 2 ⟨170, 187, 204, 221, 238, 255⟩)) ∧
    (∀ rest : List Char, (splitSpace rest).length ≠ 7 → parse_dev rest = .error rest) ∧
    (∀ rest : List Char, (splitSpace rest).length = 7 →
      parseUnsigned 255 ((splitSpace rest).getD 0 []) = none → parse_dev rest = .error rest) ∧
    (∀ rest : List Char, (splitSpace rest).length = 7 →
      MacAddr6.fromStr ((((splitSpace rest).drop 1).map padHexToken).flatten) = none →
      parse_dev rest = .error rest) ∧
    (∀ c ∈ hexDigitChars,
      parse ("_dev 2 ".data ++ [c] ++ " 68 E7 53 55 DE".data) =
        some (.ok (Response.Device 2 ⟨(hexDigitVal c).getD 0, 104, 231, 83, 85, 222⟩))) := by
  refine ⟨by decide, by decide, by decide, ?_, ?_, ?_, by decide⟩
  · intro rest h
    simp only [parse_dev]
    rw [if_pos h]
  · intro rest h7 hid
    simp only [parse_dev, hid]
    rw [if_neg (by simp [h7])]
  · intro rest h7 haddr
    simp only [parse_dev]
    rw [if_neg (by simp [h7])]
    rcases hi : parseUnsigned 255 ((splitSpace rest).getD 0 []) with _ | id
    · rfl
    · simp only [haddr]

theorem parse_dev_spec_witness :
    parse_dev ("1 2 3".data) = .error ("1 2 3".data) ∧
    parse_dev ("x 0 0 0 0 0 0".data) = .error ("x 0 0 0 0 0 0".data) ∧
    parse_dev ("1 zz 0 0 0 0 0".data) = .error ("1 zz 0 0 0 0 0".data) ∧
    parse ("_dev 2 ".data ++ ['a'] ++ " 68 E7 53 55 DE".data) =
      some (.ok (Response.Device 2 ⟨(hexDigitVal 'a').getD 0, 104, 231, 83, 85, 222⟩)) :=
  ⟨parse_dev_spec.2.2.2.1 ("1 2 3".data) (by decide),
   parse_dev_spec.2.2.2.2.1 ("x 0 0 0 0 0 0".data) (by decide) (by decide),
   parse_dev_spec.2.2.2.2.2.1 ("1 zz 0 0 0 0 0".data) (by decide) (by decide),
   parse_dev_spec.2.2.2.2.2.2 'a' (by decide)⟩

/-- C6: if the first acknowledge received during the handshake is present
but not RestartAP, `begin` fails with the expected/actual pair, having
written only the RestartAP command and awaited only one acknowledge; the
device table and every other queue are untouched. -/
theorem begin_first_ack_mismatch (e : Env) (s0 : List UniSensorDevice)
    (a : AcknowledgeType) (rest : List (Option AcknowledgeType))
    (htr : e.ackTrace = some a :: rest) (hne : a ≠ .RestartAP) :
    beginModel e s0 =
      some (.error (.UnexpectedAck .RestartAP a),
        ⟨[Command.asStr .RestartAP], [(.ack, 500)], s0, { e with ackTrace := rest }⟩) := by
  unfold beginModel recvAck
  rw [htr]
  rcases a with _ | _ | _ | _
  · rfl
  · exact absurd rfl hne
  · rfl
  · rfl

theorem begin_first_ack_mismatch_witness :
    beginModel ⟨[some .Alive], [some 1], [some 3], [some (1, 300000)], []⟩ [] =
      some (.error (.UnexpectedAck .RestartAP .Alive),
        ⟨[Command.asStr .RestartAP], [(.ack, 500)], [],
         ⟨[], [some 1], [some 3], [some (1, 300000)], []⟩⟩) :=
  begin_first_ack_mismatch ⟨[some .Alive], [some 1], [some 3], [some (1, 300000)], []⟩
    [] .Alive [] rfl (by decide)

theorem b64val_lt (c : Char) (v : Nat) (h : b64val c = some v) : c.toNat < 128 := by
  simp only [b64val] at h
  split_ifs at h <;> simp_all <;> omega

theorem b64vals_mem : ∀ (l : List Char) (vs : List Nat), b64vals l = some vs →
    ∀ c ∈ l, ∃ v, b64val c = some v := by
  intro l
  induction l with
  | nil => intro vs _ c hc; simp at hc
  | cons a t ih =>
    intro vs h c hc
    unfold b64vals at h
    rcases ha : b64val a with _ | v <;> rw [ha] at h
    · simp at h
    · rcases ht : b64vals t with _ | vt <;> rw [ht] at h
      · simp at h
      · rcases List.mem_cons.mp hc with rfl | hct
        · exact ⟨v, ha⟩
        · exact ih vt ht c hct

theorem splitPad_append (s : List Char) :
    s = (splitPad s).1 ++ List.replicate (splitPad s).2 '=' := by
  have hs := (List.reverse_reverse s).symm
  rcases h : s.reverse with _ | ⟨c1, _ | ⟨c2, t⟩⟩ <;> rw [h] at hs <;> simp only [splitPad, h]
  · simpa using hs
  · split_ifs with hc
    · subst hc; simpa using hs
    · simp
  · split_ifs with hc1 hc2
    · subst hc1; subst hc2
      rw [hs]; simp [List.replicate]
    · subst hc1
      rw [hs]; simp [List.replicate]
    · simp

theorem b64decode_chars (s : List Char) (bs : List Nat) (h : b64decode s = some bs) :
    ∀ c ∈ s, c.toNat < 128 ∧ c ≠ ' ' ∧ c ≠ '_' := by
  intro c hc
  unfold b64decode at h
  split at h
  · exact absurd h (by simp)
  · rcases hv : b64vals (splitPad s).1 with _ | vals <;> rw [hv] at h
    · simp at h
    · have hmem : c ∈ (splitPad s).1 ++ List.replicate (splitPad s).2 '=' := by
        rw [← splitPad_append s]; exact hc
      rcases List.mem_append.mp hmem with h1 | h2
      · obtain ⟨v, hv2⟩ := b64vals_mem _ _ hv c h1
        refine ⟨b64val_lt c v hv2, ?_, ?_⟩
        · intro e; rw [e, show b64val ' ' = none from by decide] at hv2; cases hv2
        · intro e; rw [e, show b64val '_' = none from by decide] at hv2; cases hv2
      · rw [List.eq_of_mem_replicate h2]
        refine ⟨by decide, by decide, by decide⟩

theorem byteLen_ascii : ∀ s : List Char, (∀ c ∈ s, c.toNat < 128) → byteLen s = s.length := by
  intro s
  induction s with
  | nil => intro _; rfl
  | cons a t ih =>
    intro h
    have ha : charUtf8Size a = 1 := by
      unfold charUtf8Size
      rw [if_pos (h a (List.mem_cons_self a t))]
    have ht := ih (fun c hc => h c (List.mem_cons_of_mem a hc))
    simp only [byteLen, List.map_cons, List.sum_cons, List.length_cons, ha] at *
    omega

theorem splitSpace_no_space : ∀ l : List Char, (∀ c ∈ l, c ≠ ' ') → splitSpace l = [l] := by
  intro l
  induction l with
  | nil => intro _; rfl
  | cons a t ih =>
    intro h
    simp only [splitSpace]
    rw [if_neg (h a (List.mem_cons_self a t)), ih (fun c hc => h c (List.mem_cons_of_mem a hc))]
    rfl

theorem b64arm_error_of_len_ne (line padded : List Char) (n : Nat)
    (k : List Nat → Except (List Char) Datagram)
    (hsub : ∀ c ∈ line, c ∈ padded)
    (hne : line.length ≠ byteLen line) :
    b64arm line padded n k = some (.error line) := by
  unfold b64arm
  rcases hd : b64decode padded with _ | bytes
  · rfl
  · have hchars := b64decode_chars _ _ hd
    have hascii : ∀ c ∈ line, c.toNat < 128 := fun c hc => (hchars c (hsub c hc)).1
    exact absurd (byteLen_ascii line hascii).symm hne

/-- C9: for every line whose leading token is none of the six command-echo
prefixes and whose character length is not one of 14, 16, 24, 27, 46, 48,
`parse` yields an error (hence `Response::Error`). -/
theorem unrecognized_length_error (line : List Char)
    (hw : (splitSpace line).headD [] ∉
      [("_si".data), ("_dev".data), ("_ch".data), ("_auto_off".data),
       ("_ok".data), ("_datamode".data)])
    (hlen : line.length ∉ ([14, 16, 24, 27, 46, 48] : List Nat)) :
    parse line = some (.error line) := by
  simp only [List.mem_cons, List.mem_singleton, not_or] at hw hlen
  obtain ⟨h1, h2, h3, h4, h5, h6, -⟩ := hw
  obtain ⟨n14, n16, n24, n27, n46, n48, -⟩ := hlen
  unfold parse
  rw [if_neg h1, if_neg h2, if_neg h3, if_neg h4, if_neg h5, if_neg h6]
  by_cases b14 : byteLen line = 14
  · rw [if_pos b14]
    exact b64arm_error_of_len_ne _ _ _ _
      (fun c hc => List.mem_append_left _ hc) (by omega)
  · rw [if_neg b14]
    by_cases b16 : byteLen line = 16
    · rw [if_pos b16]
      exact b64arm_error_of_len_ne _ _ _ _ (fun c hc => hc) (by omega)
    · rw [if_neg b16]
      by_cases b24 : byteLen line = 24
      · rw [if_pos b24]
        exact b64arm_error_of_len_ne _ _ _ _ (fun c hc => hc) (by omega)
      · rw [if_neg b24]
        by_cases b27 : byteLen line = 27
        · rw [if_pos b27]
          exact b64arm_error_of_len_ne _ _ _ _
            (fun c hc => List.mem_append_left _ hc) (by omega)
        · rw [if_neg b27]
          by_cases b46 : byteLen line = 46
          · rw [if_pos b46]
            exact b64arm_error_of_len_ne _ _ _ _
              (fun c hc => List.mem_append_left _ hc) (by omega)
          · rw [if_neg b46]
            by_cases b48 : byteLen line = 48
            · rw [if_pos b48]
              exact b64arm_error_of_len_ne _ _ _ _ (fun c hc => hc) (by omega)
            · rw [if_neg b48]

theorem unrecognized_length_error_witness :
    parse ("hello".data) = some (.error ("hello".data)) :=
  unrecognized_length_error ("hello".data) (by decide) (by decide)

theorem parse_clean_line (line : List Char)
    (hline : ∀ c ∈ line, c.toNat < 128 ∧ c ≠ ' ' ∧ c ≠ '_') :
    parse line =
      (if byteLen line = 14 then b64arm line (line ++ "==".data) 10 Datagram.parseData10
       else if byteLen line = 16 then b64arm line line 12 Datagram.parseData12
       else if byteLen line = 24 then b64arm line line 18 Datagram.parseData18
       else if byteLen line = 27 then b64arm line (line ++ "=".data) 20 Datagram.parseData20
       else if byteLen line = 46 then b64arm line (line ++ "==".data) 34 Datagram.parseData34
       else if byteLen line = 48 then b64arm line line 36 Datagram.parseData36
       else some (.error line)) := by
  have hsp : splitSpace line = [line] := splitSpace_no_space line (fun c hc => (hline c hc).2.1)
  have hnp : ∀ t : List Char, '_' ∈ t → line ≠ t :=
    fun t ht he => (hline '_' (he ▸ ht)).2.2 rfl
  simp only [parse, hsp, List.headD_cons]
  rw [if_neg (hnp _ (by decide)), if_neg (hnp _ (by decide)), if_neg (hnp _ (by decide)),
      if_neg (hnp _ (by decide)), if_neg (hnp _ (by decide)), if_neg (hnp _ (by decide))]

/-- C3: every 27-character unprefixed base64 telemetry line that decodes
(after the appended padding) to 20 bytes parses to a Datagram whose
quaternion slots 0 and 1 are populated and 2 and 3 absent, with id,
battery voltage, the two quaternions, the ahrs byte and the magnetic byte
taken from the decoded bytes at offsets 0, 1, 2..10, 10..18, 18, 19. -/
theorem parse_len27_telemetry (line : List Char) (bytes : List Nat)
    (h27 : line.length = 27)
    (hd : b64decode (line ++ "=".data) = some bytes)
    (hlen : bytes.length = 20) :
    parse line =
      some (.ok (Response.Data
        { id := bytes.getD 0 0
          battery_voltage := bytes.getD 1 0
          quaternions := [some (Quaternion.fromBytes ((bytes.drop 2).take 8)),
                          some (Quaternion.fromBytes ((bytes.drop 10).take 8)),
                          none, none]
          ahrs_enable := bytes.getD 18 0
          magnetic_power := bytes.getD 19 0 })) := by
  have hchars := b64decode_chars _ _ hd
  have hline : ∀ c ∈ line, c.toNat < 128 ∧ c ≠ ' ' ∧ c ≠ '_' :=
    fun c hc => hchars c (List.mem_append_left _ hc)
  have hbl : byteLen line = 27 := by
    rw [byteLen_ascii line (fun c hc => (hline c hc).1), h27]
  rw [parse_clean_line line hline]
  rw [if_neg (by omega), if_neg (by omega), if_neg (by omega), if_pos hbl]
  unfold b64arm
  rw [hd]
  have ht : bytes.take 20 = bytes := by rw [← hlen]; exact List.take_length bytes
  simp [hlen, ht, Datagram.parseData20, Except.map]

theorem parse_len27_telemetry_witness :
    ("B6cdte627NJ+Gxy1rbZs058bgP8".data).length = 27 ∧
    b64decode ("B6cdte627NJ+Gxy1rbZs058bgP8".data ++ "=".data) =
      some [7, 167, 29, 181, 238, 182, 236, 210, 126, 27,
            28, 181, 173, 182, 108, 211, 159, 27, 128, 255] ∧
    parse ("B6cdte627NJ+Gxy1rbZs058bgP8".data) =
      some (.ok (Response.Data
        { id := ([7, 167, 29, 181, 238, 182, 236, 210, 126, 27,
                  28, 181, 173, 182, 108, 211, 159, 27, 128, 255] : List Nat).getD 0 0
          battery_voltage := ([7, 167, 29, 181, 238, 182, 236, 210, 126, 27,
                  28, 181, 173, 182, 108, 211, 159, 27, 128, 255] : List Nat).getD 1 0
          quaternions := [some (Quaternion.fromBytes ((([7, 167, 29, 181, 238, 182, 236, 210, 126, 27,
                  28, 181, 173, 182, 108, 211, 159, 27, 128, 255] : List Nat).drop 2).take 8)),
                          some (Quaternion.fromBytes ((([7, 167, 29, 181, 238, 182, 236, 210, 126, 27,
                  28, 181, 173, 182, 108, 211, 159, 27, 128, 255] : List Nat).drop 10).take 8)),
                          none, none]
          ahrs_enable := ([7, 167, 29, 181, 238, 182, 236, 210, 126, 27,
                  28, 181, 173, 182, 108, 211, 159, 27, 128, 255] : List Nat).getD 18 0
          magnetic_power := ([7, 167, 29, 181, 238, 182, 236, 210, 126, 27,
                  28, 181, 173, 182, 108, 211, 159, 27, 128, 255] : List Nat).getD 19 0 })) :=
  ⟨by decide, by decide,
   parse_len27_telemetry ("B6cdte627NJ+Gxy1rbZs058bgP8".data) _ (by decide) (by decide) (by decide)⟩

/-- C8 (counterexample): the claim says that whenever the base64 content
of a line with one of the five unimplemented lengths decodes successfully,
`parse` returns `Response::Error`.  The 24-character line
"AAAAAAAAAAAAAAAAAAAAAA==" decodes successfully (to 16 bytes, not 18),
yet `parse` panics on the `bytes[..18]` slice instead of returning an
error value. -/
theorem unimplemented_arm_panic_counterexample :
    (b64decode ("AAAAAAAAAAAAAAAAAAAAAA==".data)).isSome = true ∧
    parse ("AAAAAAAAAAAAAAAAAAAAAA==".data) = none :=
  ⟨by decide, by decide⟩

/-- C8 (amended): for every unprefixed line of character length 14, 16,
24, 46 or 48 whose base64 content (after the length-specific padding)
decodes successfully to the full expected byte count (10, 12, 18, 34, 36
respectively), the datagram decoder signals the distinct "Not implemented"
error and `parse` returns it (hence `Response::Error`); and no line of
these five lengths ever produces a Datagram.  (When the decode succeeds
with fewer bytes than expected — possible only through embedded padding —
the slice panics instead; see the counterexample.) -/
theorem unimplemented_lengths_error :
    (∀ (line : List Char) (bytes : List Nat), line.length = 14 →
      b64decode (line ++ "==".data) = some bytes → bytes.length = 10 →
      parse line = some (.error ("Not implemented".data))) ∧
    (∀ (line : List Char) (bytes : List Nat), line.length = 16 →
      b64decode line = some bytes → bytes.length = 12 →
      parse line = some (.error ("Not implemented".data))) ∧
    (∀ (line : List Char) (bytes : List Nat), line.length = 24 →
      b64decode line = some bytes → bytes.length = 18 →
      parse line = some (.error ("Not implemented".data))) ∧
    (∀ (line : List Char) (bytes : List Nat), line.length = 46 →
      b64decode (line ++ "==".data) = some bytes → bytes.length = 34 →
      parse line = some (.error ("Not implemented".data))) ∧
    (∀ (line : List Char) (bytes : List Nat), line.length = 48 →
      b64decode line = some bytes → bytes.length = 36 →
      parse line = some (.error ("Not implemented".data))) ∧
    (∀ line : List Char, line.length ∈ ([14, 16, 24, 46, 48] : List Nat) →
      ∀ d, parse line ≠ some (.ok (Response.Data d))) := by
  refine ⟨?_, ?_, ?_, ?_, ?_, ?_⟩
  · intro line bytes hL hd hblen
    have hchars := b64decode_chars _ _ hd
    have hline : ∀ c ∈ line, c.toNat < 128 ∧ c ≠ ' ' ∧ c ≠ '_' :=
      fun c hc => hchars c (List.mem_append_left _ hc)
    have hbl : byteLen line = 14 := by
      rw [byteLen_ascii line (fun c hc => (hline c hc).1), hL]
    rw [parse_clean_line line hline, if_pos hbl]
    unfold b64arm
    rw [hd]
    simp [hblen, Datagram.parseData10, Except.map]
  · intro line bytes hL hd hblen
    have hchars := b64decode_chars _ _ hd
    have hbl : byteLen line = 16 := by
      rw [byteLen_ascii line (fun c hc => (hchars c hc).1), hL]
    rw [parse_clean_line line hchars, if_neg (by omega), if_pos hbl]
    unfold b64arm
    rw [hd]
    simp [hblen, Datagram.parseData12, Except.map]
  · intro line bytes hL hd hblen
    have hchars := b64decode_chars _ _ hd
    have hbl : byteLen line = 24 := by
      rw [byteLen_ascii line (fun c hc => (hchars c hc).1), hL]
    rw [parse_clean_line line hchars, if_neg (by omega), if_neg (by omega), if_pos hbl]
    unfold b64arm
    rw [hd]
    simp [hblen, Datagram.parseData18, Except.map]
  · intro line bytes hL hd hblen
    have hchars := b64decode_chars _ _ hd
    have hline : ∀ c ∈ line, c.toNat < 128 ∧ c ≠ ' ' ∧ c ≠ '_' :=
      fun c hc => hchars c (List.mem_append_left _ hc)
    have hbl : byteLen line = 46 := by
      rw [byteLen_ascii line (fun c hc => (hline c hc).1), hL]
    rw [parse_clean_line line hline, if_neg (by omega), if_neg (by omega), if_neg (by omega),
        if_neg (by omega), if_pos hbl]
    unfold b64arm
    rw [hd]
    simp [hblen, Datagram.parseData34, Except.map]
  · intro line bytes hL hd hblen
    have hchars := b64decode_chars _ _ hd
    have hbl : byteLen line = 48 := by
      rw [byteLen_ascii line (fun c hc => (hchars c hc).1), hL]
    rw [parse_clean_line line hchars, if_neg (by omega), if_neg (by omega), if_neg (by omega),
        if_neg (by omega), if_neg (by omega), if_pos hbl]
    unfold b64arm
    rw [hd]
    simp [hblen, Datagram.parseData36, Except.map]
  · intro line hmem d
    simp only [List.mem_cons, List.not_mem_nil, or_false] at hmem
    have hite : ∀ (c : Prop) (inst : Decidable c) (a b : Option (Except (List Char) Response)),
        (c → a ≠ some (.ok (Response.Data d))) →
        (¬ c → b ≠ some (.ok (Response.Data d))) →
        (if c then a else b) ≠ some (.ok (Response.Data d)) := by
      intro c inst a b ha hb
      by_cases hc : c
      · rw [if_pos hc]; exact ha hc
      · rw [if_neg hc]; exact hb hc
    simp only [parse]
    refine hite _ _ _ _ (fun p1 => ?_) (fun np1 => ?_)
    · rcases hsi : parse_si (trimStart (line.drop 3)) with e | v <;> simp [hsi, Except.map]
    refine hite _ _ _ _ (fun p2 => ?_) (fun np2 => ?_)
    · rcases hdv : parse_dev (trimStart (line.drop 4)) with e | v <;> simp [hdv, Except.map]
    refine hite _ _ _ _ (fun p3 => ?_) (fun np3 => ?_)
    · rcases hch : parse_ch (trimStart (line.drop 3)) with e | v <;> simp [hch, Except.map]
    refine hite _ _ _ _ (fun p4 => ?_) (fun np4 => ?_)
    · rcases hao : parse_auto_off (trimStart (line.drop 9)) with e | v <;> simp [hao, Except.map]
    refine hite _ _ _ _ (fun p5 => ?_) (fun np5 => ?_)
    · rcases hok : parse_ok (trimStart (line.drop 3)) with e | v <;> simp [hok, Except.map]
    refine hite _ _ _ _ (fun p6 => ?_) (fun np6 => ?_)
    · rcases hdm : parse_datamode (trimStart (line.drop 9)) with e | v <;> simp [hdm, Except.map]
    refine hite _ _ _ _ (fun q14 => ?_) (fun nq14 => ?_)
    · unfold b64arm
      rcases hd : b64decode (line ++ "==".data) with _ | bytes
      · simp [hd]
      · simp only [hd]
        split_ifs <;> simp [Datagram.parseData10, Except.map]
    refine hite _ _ _ _ (fun q16 => ?_) (fun nq16 => ?_)
    · unfold b64arm
      rcases hd : b64decode line with _ | bytes
      · simp [hd]
      · simp only [hd]
        split_ifs <;> simp [Datagram.parseData12, Except.map]
    refine hite _ _ _ _ (fun q24 => ?_) (fun nq24 => ?_)
    · unfold b64arm
      rcases hd : b64decode line with _ | bytes
      · simp [hd]
      · simp only [hd]
        split_ifs <;> simp [Datagram.parseData18, Except.map]
    refine hite _ _ _ _ (fun q27 => ?_) (fun nq27 => ?_)
    · unfold b64arm
      rcases hd : b64decode (line ++ "=".data) with _ | bytes
      · simp [hd]
      · exfalso
        have hchars := b64decode_chars _ _ hd
        have hbl : byteLen line = line.length :=
          byteLen_ascii line (fun c hc => (hchars c (List.mem_append_left _ hc)).1)
        rw [hbl] at q27
        rcases hmem with h | h | h | h | h <;> omega
    refine hite _ _ _ _ (fun q46 => ?_) (fun nq46 => ?_)
    · unfold b64arm
      rcases hd : b64decode (line ++ "==".data) with _ | bytes
      · simp [hd]
      · simp only [hd]
        split_ifs <;> simp [Datagram.parseData34, Except.map]
    refine hite _ _ _ _ (fun q48 => ?_) (fun nq48 => ?_)
    · unfold b64arm
      rcases hd : b64decode line with _ | bytes
      · simp [hd]
      · simp only [hd]
        split_ifs <;> simp [Datagram.parseData36, Except.map]
    simp

theorem unimplemented_lengths_error_witness :
    parse ("AAAAAAAAAAAAAAAA".data) = some (.error ("Not implemented".data)) ∧
    parse ("AAAAAAAAAAAAAAAA".data) ≠ some (.ok (Response.Data ⟨0, 0, [], 0, 0⟩)) :=
  ⟨unimplemented_lengths_error.2.1 ("AAAAAAAAAAAAAAAA".data)
      [0, 0, 0, 0, 0, 0, 0, 0, 0, 0, 0, 0] (by decide) (by decide) (by decide),
   unimplemented_lengths_error.2.2.2.2.2 ("AAAAAAAAAAAAAAAA".data) (by decide) ⟨0, 0, [], 0, 0⟩⟩

theorem getDevicesLoop_full :
    ∀ (ds : List (Nat × MacAddr6)) (rest : List (Option (Nat × MacAddr6)))
      (e : Env) (log : List (QueueKind × Nat)) (res : List (Nat × MacAddr6)) (t : Nat),
    e.deviceTrace = ds.map some ++ rest → (∀ p ∈ ds, p.1 < MAX_UNISENSOR_COUNT) →
    getDevicesLoop t ds.length e log res =
      some (.ok (ds.foldl (fun r p => r.set p.1 p) res),
            { e with deviceTrace := rest },
            log ++ ds.map (fun _ => (QueueKind.device, t))) := by
  intro ds
  induction ds with
  | nil =>
    intro rest e log res t htr _
    simp only [List.map_nil, List.nil_append] at htr
    simp only [List.length_nil, getDevicesLoop, List.foldl_nil, List.map_nil, List.append_nil]
    rw [← htr]
  | cons p ds ih =>
    intro rest e log res t htr hlt
    simp only [List.length_cons, getDevicesLoop, recvDevice, htr, List.map_cons,
      List.cons_append]
    rw [if_pos (hlt p (List.mem_cons_self p ds))]
    rw [ih rest _ _ _ t rfl (fun q hq => hlt q (List.mem_cons_of_mem p hq))]
    simp [List.append_assoc]

theorem getDevicesLoop_timeout :
    ∀ (ds : List (Nat × MacAddr6)) (n : Nat) (rest : List (Option (Nat × MacAddr6)))
      (e : Env) (log : List (QueueKind × Nat)) (res : List (Nat × MacAddr6)) (t : Nat),
    ds.length < n → e.deviceTrace = ds.map some ++ none :: rest →
    (∀ p ∈ ds, p.1 < MAX_UNISENSOR_COUNT) →
    getDevicesLoop t n e log res =
      some (.error (), { e with deviceTrace := rest },
            log ++ List.replicate (ds.length + 1) (QueueKind.device, t)) := by
  intro ds
  induction ds with
  | nil =>
    intro n rest e log res t hn htr _
    obtain ⟨m, rfl⟩ : ∃ m, n = m + 1 := ⟨n - 1, by omega⟩
    simp only [List.map_nil, List.nil_append] at htr
    simp only [getDevicesLoop, recvDevice, htr]
    simp [List.replicate]
  | cons p ds ih =>
    intro n rest e log res t hn htr hlt
    obtain ⟨m, rfl⟩ : ∃ m, n = m + 1 := ⟨n - 1, by omega⟩
    simp only [getDevicesLoop, recvDevice, htr, List.map_cons, List.cons_append]
    rw [if_pos (hlt p (List.mem_cons_self p ds))]
    rw [ih m rest _ _ _ t (by simp only [List.length_cons] at hn; omega) rfl
        (fun q hq => hlt q (List.mem_cons_of_mem p hq))]
    simp [List.replicate_succ, List.append_assoc]

theorem getDevicesLoop_total :
    ∀ (n : Nat) (e : Env) (log : List (QueueKind × Nat)) (res : List (Nat × MacAddr6)) (t : Nat),
    (∀ o ∈ e.deviceTrace, ∀ p, o = some p → p.1 < MAX_UNISENSOR_COUNT) →
    (getDevicesLoop t n e log res).isSome := by
  intro n
  induction n with
  | zero => intro e log res t _; simp [getDevicesLoop]
  | succ m ih =>
    intro e log res t h
    rcases htr : e.deviceTrace with _ | ⟨o, tr⟩
    · simp [getDevicesLoop, recvDevice, htr]
    · rcases o with _ | p
      · simp [getDevicesLoop, recvDevice, htr]
      · simp only [getDevicesLoop, recvDevice, htr]
        rw [if_pos (h (some p) (htr ▸ List.mem_cons_self _ _) p rfl)]
        exact ih _ _ _ t (fun o ho q hq => h o (htr ▸ List.mem_cons_of_mem _ ho) q hq)

theorem getDevicesLoop_oob (t n : Nat) (e : Env) (log : List (QueueKind × Nat))
    (res : List (Nat × MacAddr6)) (id : Nat) (addr : MacAddr6)
    (rest : List (Option (Nat × MacAddr6)))
    (htr : e.deviceTrace = some (id, addr) :: rest) (hid : MAX_UNISENSOR_COUNT ≤ id)
    (hn : n ≠ 0) :
    getDevicesLoop t n e log res = none := by
  obtain ⟨m, rfl⟩ : ∃ m, n = m + 1 := ⟨n - 1, by omega⟩
  simp only [getDevicesLoop, recvDevice, htr]
  rw [if_neg (by omega)]

theorem foldl_set_length :
    ∀ (ds : List (Nat × MacAddr6)) (res : List (Nat × MacAddr6)),
    (ds.foldl (fun r p => r.set p.1 p) res).length = res.length := by
  intro ds
  induction ds with
  | nil => intro res; rfl
  | cons p ds ih => intro res; simp [ih, List.length_set]

theorem foldl_set_untouched :
    ∀ (ds : List (Nat × MacAddr6)) (res : List (Nat × MacAddr6)) (i : Nat),
    (∀ p ∈ ds, p.1 ≠ i) →
    (ds.foldl (fun r p => r.set p.1 p) res)[i]? = res[i]? := by
  intro ds
  induction ds with
  | nil => intro res i _; rfl
  | cons p ds ih =>
    intro res i h
    simp only [List.foldl_cons]
    rw [ih _ i (fun q hq => h q (List.mem_cons_of_mem p hq))]
    exact List.getElem?_set_ne (h p (List.mem_cons_self p ds))

theorem foldl_set_written :
    ∀ (ds : List (Nat × MacAddr6)) (res : List (Nat × MacAddr6)) (id : Nat) (a : MacAddr6),
    (ds.map Prod.fst).Nodup → (id, a) ∈ ds → id < res.length →
    (ds.foldl (fun r p => r.set p.1 p) res)[id]? = some (id, a) := by
  intro ds
  induction ds with
  | nil => intro res id a _ hm; simp at hm
  | cons p ds ih =>
    intro res id a hnd hm hlen
    simp only [List.map_cons, List.nodup_cons] at hnd
    rcases List.mem_cons.mp hm with rfl | hm2
    · simp only [List.foldl_cons]
      rw [foldl_set_untouched ds _ id (by
        intro q hq hq1
        exact absurd (show (id : Nat) ∈ List.map Prod.fst ds by
          rw [← hq1]; exact List.mem_map_of_mem Prod.fst hq) hnd.1)]
      exact List.getElem?_set_self (by simpa [List.length_set] using hlen)
    · simp only [List.foldl_cons]
      exact ih _ id a hnd.2 hm2 (by simpa [List.length_set] using hlen)

theorem foldl_set_mem :
    ∀ (ds : List (Nat × MacAddr6)) (res : List (Nat × MacAddr6)) (p : Nat × MacAddr6),
    p ∈ ds.foldl (fun r q => r.set q.1 q) res → p ∈ res ∨ p ∈ ds := by
  intro ds
  induction ds with
  | nil => intro res p h; exact .inl h
  | cons q ds ih =>
    intro res p h
    rcases ih _ p h with h1 | h1
    · rcases List.mem_or_eq_of_mem_set h1 with h2 | h2
      · exact .inl h2
      · exact .inr (h2 ▸ List.mem_cons_self q ds)
    · exact .inr (List.mem_cons_of_mem q h1)

theorem populate_length :
    ∀ (L : List (Nat × MacAddr6)) (st st2 : List UniSensorDevice),
    populateDevices st L = some st2 → st2.length = st.length := by
  intro L
  induction L with
  | nil => intro st st2 h; cases h; rfl
  | cons p L ih =>
    intro st st2 h
    unfold populateDevices at h
    split_ifs at h with h1 h2
    · exact ih _ _ h
    · rw [ih _ _ h, List.length_set]

theorem populate_isSome :
    ∀ (L : List (Nat × MacAddr6)) (st : List UniSensorDevice),
    (∀ p ∈ L, p.2.isNil = true ∨ p.1 < MAX_UNISENSOR_COUNT) →
    (populateDevices st L).isSome := by
  intro L
  induction L with
  | nil => intro st _; simp [populateDevices]
  | cons p L ih =>
    intro st h
    unfold populateDevices
    split_ifs with h1 h2
    · exact ih _ (fun q hq => h q (List.mem_cons_of_mem p hq))
    · exact ih _ (fun q hq => h q (List.mem_cons_of_mem p hq))
    · rcases h p (List.mem_cons_self p L) with h3 | h3
      · exact absurd h3 (by simp [h1])
      · exact absurd h3 h2

theorem populate_untouched :
    ∀ (L : List (Nat × MacAddr6)) (st st2 : List UniSensorDevice) (i : Nat),
    populateDevices st L = some st2 →
    (∀ p ∈ L, p.2.isNil = false → p.1 ≠ i) → st2[i]? = st[i]? := by
  intro L
  induction L with
  | nil => intro st st2 i h _; cases h; rfl
  | cons p L ih =>
    intro st st2 i h hni
    unfold populateDevices at h
    split_ifs at h with h1 h2
    · exact ih _ _ i h (fun q hq => hni q (List.mem_cons_of_mem p hq))
    · rw [ih _ _ i h (fun q hq => hni q (List.mem_cons_of_mem p hq))]
      exact List.getElem?_set_ne
        (hni p (List.mem_cons_self p L) (by simpa using h1))

theorem populate_preserve :
    ∀ (L : List (Nat × MacAddr6)) (st st2 : List UniSensorDevice) (id : Nat) (a : MacAddr6),
    populateDevices st L = some st2 →
    (∀ p ∈ L, p.1 = id → p.2.isNil = false → p = (id, a)) →
    st[id]? = some ⟨id, a, none⟩ → st2[id]? = some ⟨id, a, none⟩ := by
  intro L
  induction L with
  | nil => intro st st2 id a h _ hst; cases h; exact hst
  | cons p L ih =>
    intro st st2 id a h huniq hst
    unfold populateDevices at h
    split_ifs at h with h1 h2
    · exact ih _ _ id a h (fun q hq => huniq q (List.mem_cons_of_mem p hq)) hst
    · by_cases hpi : p.1 = id
      · have hp := huniq p (List.mem_cons_self p L) hpi (by simpa using h1)
        refine ih _ _ id a h (fun q hq => huniq q (List.mem_cons_of_mem p hq)) ?_
        rw [hp]
        exact List.getElem?_set_self (by
          have : id < st.length := by
            by_contra hc
            rw [List.getElem?_eq_none (by omega)] at hst
            cases hst
          omega)
      · refine ih _ _ id a h (fun q hq => huniq q (List.mem_cons_of_mem p hq)) ?_
        rw [List.getElem?_set_ne hpi]
        exact hst

theorem populate_written :
    ∀ (L : List (Nat × MacAddr6)) (st st2 : List UniSensorDevice) (id : Nat) (a : MacAddr6),
    populateDevices st L = some st2 →
    (id, a) ∈ L → a.isNil = false → id < st.length →
    (∀ p ∈ L, p.1 = id → p.2.isNil = false → p = (id, a)) →
    st2[id]? = some ⟨id, a, none⟩ := by
  intro L
  induction L with
  | nil => intro st st2 id a _ hm; simp at hm
  | cons p L ih =>
    intro st st2 id a h hm hnil hlen huniq
    unfold populateDevices at h
    rcases List.mem_cons.mp hm with rfl | hm2
    · rw [if_neg (by simp [hnil])] at h
      split_ifs at h with h2
      refine populate_preserve L _ _ id a h
        (fun q hq => huniq q (List.mem_cons_of_mem _ hq)) ?_
      exact List.getElem?_set_self (by simpa using hlen)
    · split_ifs at h with h1 h2
      · exact ih _ _ id a h hm2 hnil hlen (fun q hq => huniq q (List.mem_cons_of_mem p hq))
      · by_cases hpi : p.1 = id
        · have hp := huniq p (List.mem_cons_self p L) hpi (by simpa using h1)
          refine populate_preserve L _ _ id a h
            (fun q hq => huniq q (List.mem_cons_of_mem p hq)) ?_
          rw [hp]
          exact List.getElem?_set_self (by simpa using hlen)
        · refine ih _ _ id a h hm2 hnil (by simpa [List.length_set] using hlen)
            (fun q hq => huniq q (List.mem_cons_of_mem p hq))

theorem nodup_fst_unique :
    ∀ (ds : List (Nat × MacAddr6)) (p q : Nat × MacAddr6),
    (ds.map Prod.fst).Nodup → p ∈ ds → q ∈ ds → p.1 = q.1 → p = q := by
  intro ds
  induction ds with
  | nil => intro p q _ hp; simp at hp
  | cons r ds ih =>
    intro p q hnd hp hq heq
    simp only [List.map_cons, List.nodup_cons] at hnd
    rcases List.mem_cons.mp hp with rfl | hp2 <;> rcases List.mem_cons.mp hq with rfl | hq2
    · rfl
    · exact absurd (heq ▸ List.mem_map_of_mem Prod.fst hq2) hnd.1
    · exact absurd (heq ▸ List.mem_map_of_mem Prod.fst hp2) hnd.1
    · exact ih p q hnd.2 hp2 hq2 heq

theorem initDeviceRes_mem (p : Nat × MacAddr6) (h : p ∈ initDeviceRes) :
    p = (255, MacAddr6.nil) :=
  List.eq_of_mem_replicate h

theorem beginFinalAcks_shape (e : Env) (aw : List (QueueKind × Nat))
    (sensors : List UniSensorDevice) :
    ∃ r log extraW extraA, beginFinalAcks e aw sensors = some (r, log) ∧
      log.written = [Command.asStr .RestartAP, Command.asStr .Alive] ++ extraW ∧
      log.awaited = aw ++ (QueueKind.ack, 500) :: extraA ∧
      (∀ q ∈ extraA, q.1 = QueueKind.ack) ∧
      log.sensors = sensors := by
  rcases h1 : e.ackTrace with _ | ⟨_ | a2, r1⟩
  · simp only [beginFinalAcks, recvAck, h1]
    exact ⟨_, _, [], [], rfl, by simp, by simp, by simp, rfl⟩
  · simp only [beginFinalAcks, recvAck, h1]
    exact ⟨_, _, [], [], rfl, by simp, by simp, by simp, rfl⟩
  · rcases a2 with _ | _ | _ | _
    · rcases r1 with _ | ⟨_ | a3, r2⟩
      · simp only [beginFinalAcks, recvAck, h1]
        exact ⟨_, _, [Command.asStr .StartWifi], [(QueueKind.ack, 500)], rfl,
          by simp, by simp, by simp, rfl⟩
      · simp only [beginFinalAcks, recvAck, h1]
        exact ⟨_, _, [Command.asStr .StartWifi], [(QueueKind.ack, 500)], rfl,
          by simp, by simp, by simp, rfl⟩
      · rcases a3 with _ | _ | _ | _
        · simp only [beginFinalAcks, recvAck, h1]
          exact ⟨_, _, [Command.asStr .StartWifi], [(QueueKind.ack, 500)], rfl,
            by simp, by simp, by simp, rfl⟩
        · simp only [beginFinalAcks, recvAck, h1]
          exact ⟨_, _, [Command.asStr .StartWifi], [(QueueKind.ack, 500)], rfl,
            by simp, by simp, by simp, rfl⟩
        · rcases r2 with _ | ⟨_ | a4, r3⟩
          · simp only [beginFinalAcks, recvAck, h1]
            exact ⟨_, _, [Command.asStr .StartWifi, Command.asStr .QuitConfig],
              [(QueueKind.ack, 500), (QueueKind.ack, 500)], rfl,
              by simp, by simp, by simp, rfl⟩
          · simp only [beginFinalAcks, recvAck, h1]
            exact ⟨_, _, [Command.asStr .StartWifi, Command.asStr .QuitConfig],
              [(QueueKind.ack, 500), (QueueKind.ack, 500)], rfl,
              by simp, by simp, by simp, rfl⟩
          · rcases a4 with _ | _ | _ | _ <;>
              simp only [beginFinalAcks, recvAck, h1] <;>
              exact ⟨_, _, [Command.asStr .StartWifi, Command.asStr .QuitConfig],
                [(QueueKind.ack, 500), (QueueKind.ack, 500)], rfl,
                by simp, by simp, by simp, rfl⟩
        · simp only [beginFinalAcks, recvAck, h1]
          exact ⟨_, _, [Command.asStr .StartWifi], [(QueueKind.ack, 500)], rfl,
            by simp, by simp, by simp, rfl⟩
    · simp only [beginFinalAcks, recvAck, h1]
      exact ⟨_, _, [], [], rfl, by simp, by simp, by simp, rfl⟩
    · simp only [beginFinalAcks, recvAck, h1]
      exact ⟨_, _, [], [], rfl, by simp, by simp, by simp, rfl⟩
    · simp only [beginFinalAcks, recvAck, h1]
      exact ⟨_, _, [], [], rfl, by simp, by simp, by simp, rfl⟩

theorem mem_of_getElem?_dev (l : List (Nat × MacAddr6)) (i : Nat) (a : Nat × MacAddr6)
    (h : l[i]? = some a) : a ∈ l := by
  obtain ⟨hi, rfl⟩ := List.getElem?_eq_some.mp h
  exact List.getElem_mem hi

theorem filter_device_map (ds : List (Nat × MacAddr6)) :
    (List.map (fun _ => ((QueueKind.device, 500) : QueueKind × Nat)) ds).filter
      (fun q => decide (q.1 = QueueKind.device)) =
    List.replicate ds.length (QueueKind.device, 500) := by
  induction ds with
  | nil => rfl
  | cons p t ih => simp [List.replicate_succ, ih]

theorem filter_device_replicate (n : Nat) :
    (List.replicate n ((QueueKind.device, 500) : QueueKind × Nat)).filter
      (fun q => decide (q.1 = QueueKind.device)) = List.replicate n (QueueKind.device, 500) := by
  induction n with
  | zero => rfl
  | succ m ih => simp [List.replicate_succ, ih]

theorem filter_device_acks (L : List (QueueKind × Nat)) (h : ∀ q ∈ L, q.1 = QueueKind.ack) :
    L.filter (fun q => decide (q.1 = QueueKind.device)) = [] := by
  induction L with
  | nil => rfl
  | cons q t ih =>
    rw [List.filter_cons]
    rw [if_neg (by simp [h q (List.mem_cons_self q t)])]
    exact ih (fun p hp => h p (List.mem_cons_of_mem q hp))

/-- C7: during the device-enumeration step `begin` awaits up to
MAX_UNISENSOR_COUNT (24) Device values with a 500 ms per-value timeout.
With 24 values delivered it performs exactly 24 device awaits, populates
the device table at index id for every received value with a non-nil
address (leaving sensor_info unset), skips nil addresses (such slots keep
their previous entry), and proceeds to the next step (the Alive command
is written).  With fewer values followed by a timeout it stops early,
aborting with the channel error after one await per received value plus
the timed-out one, leaving the table untouched. -/
theorem begin_device_enumeration :
    (∀ (e : Env) (s0 : List UniSensorDevice) (ds : List (Nat × MacAddr6))
       (rest : List (Option (Nat × MacAddr6))) (a1t : List (Option AcknowledgeType))
       (c0 : Nat) (cht : List (Option Nat)) (dm0 : Nat) (dmt : List (Option Nat))
       (ao0 : Nat × Nat) (aot : List (Option (Nat × Nat))),
       e.ackTrace = some .RestartAP :: a1t →
       e.channelTrace = some c0 :: cht →
       e.datamodeTrace = some dm0 :: dmt →
       e.autoOffTrace = some ao0 :: aot →
       e.deviceTrace = List.map some ds ++ rest →
       ds.length = MAX_UNISENSOR_COUNT →
       (∀ p ∈ ds, p.1 < MAX_UNISENSOR_COUNT) →
       (ds.map Prod.fst).Nodup →
       s0.length = MAX_UNISENSOR_COUNT →
       ∃ r log, beginModel e s0 = some (r, log) ∧
         log.written.take 2 = [Command.asStr .RestartAP, Command.asStr .Alive] ∧
         log.awaited.filter (fun q => decide (q.1 = QueueKind.device)) =
           List.replicate MAX_UNISENSOR_COUNT (QueueKind.device, 500) ∧
         (∀ id addr, (id, addr) ∈ ds → addr.isNil = false →
           log.sensors[id]? = some ⟨id, addr, none⟩) ∧
         (∀ j, j < MAX_UNISENSOR_COUNT →
           (∀ addr, (j, addr) ∈ ds → addr.isNil = true) → log.sensors[j]? = s0[j]?)) ∧
    (∀ (e : Env) (s0 : List UniSensorDevice) (ds : List (Nat × MacAddr6))
       (rest : List (Option (Nat × MacAddr6))) (a1t : List (Option AcknowledgeType))
       (c0 : Nat) (cht : List (Option Nat)) (dm0 : Nat) (dmt : List (Option Nat))
       (ao0 : Nat × Nat) (aot : List (Option (Nat × Nat))),
       e.ackTrace = some .RestartAP :: a1t →
       e.channelTrace = some c0 :: cht →
       e.datamodeTrace = some dm0 :: dmt →
       e.autoOffTrace = some ao0 :: aot →
       e.deviceTrace = List.map some ds ++ none :: rest →
       ds.length < MAX_UNISENSOR_COUNT →
       (∀ p ∈ ds, p.1 < MAX_UNISENSOR_COUNT) →
       ∃ log, beginModel e s0 = some (.error .CrossbeamChannel, log) ∧
         log.awaited.filter (fun q => decide (q.1 = QueueKind.device)) =
           List.replicate (ds.length + 1) (QueueKind.device, 500) ∧
         log.sensors = s0) := by
  constructor
  · intro e s0 ds rest a1t c0 cht dm0 dmt ao0 aot hack hch hdm hao hdev hlen24 hlt hnd hs0
    have hloop := getDevicesLoop_full ds rest (Env.mk a1t cht dmt aot e.deviceTrace)
      [] initDeviceRes 500 hdev hlt
    rw [hlen24] at hloop
    simp only [beginModel, recvAck, recvChannel, recvDatamode, recvAutoOff,
      hack, hch, hdm, hao, getDevicesTimeout, hloop, List.nil_append]
    have hmemA : ∀ p ∈ ds.foldl (fun r q => r.set q.1 q) initDeviceRes,
        p = (255, MacAddr6.nil) ∨ p ∈ ds := by
      intro p hp
      rcases foldl_set_mem ds initDeviceRes p hp with h | h
      · exact .inl (initDeviceRes_mem p h)
      · exact .inr h
    have hsome := populate_isSome (ds.foldl (fun r q => r.set q.1 q) initDeviceRes) s0 (by
      intro p hp
      rcases hmemA p hp with rfl | h
      · exact .inl (by decide)
      · exact .inr (hlt p h))
    rcases hps : populateDevices s0 (ds.foldl (fun r q => r.set q.1 q) initDeviceRes)
      with _ | tbl
    · rw [hps] at hsome; cases hsome
    · simp only [hps]
      obtain ⟨r, log, exW, exA, heq, hwr, haw, hackA, hsen⟩ :=
        beginFinalAcks_shape (Env.mk a1t cht dmt aot rest)
          ([(QueueKind.ack, 500), (QueueKind.channel, 500), (QueueKind.datamode, 500),
            (QueueKind.autoOff, 500)] ++ List.map (fun _ => (QueueKind.device, 500)) ds) tbl
      refine ⟨r, log, heq, ?_, ?_, ?_, ?_⟩
      · rw [hwr]; rfl
      · rw [haw]
        simp only [List.filter_append, List.filter_cons, filter_device_map,
          filter_device_acks exA hackA]
        simp [hlen24]
      · intro id addr hmem hnnil
        rw [hsen]
        have hidlt := hlt (id, addr) hmem
        have hwrA := foldl_set_written ds initDeviceRes id addr hnd hmem
          (by simpa [initDeviceRes, List.length_replicate] using hidlt)
        refine populate_written _ s0 tbl id addr hps (mem_of_getElem?_dev _ _ _ hwrA) hnnil
          (by omega) ?_
        intro p hp hpj hpn
        rcases hmemA p hp with rfl | h
        · exact absurd hpn (by simp [MacAddr6.isNil])
        · exact nodup_fst_unique ds p (id, addr) hnd h hmem hpj
      · intro j hj hnilj
        rw [hsen]
        refine populate_untouched _ s0 tbl j hps ?_
        intro p hp hpn hpj
        rcases hmemA p hp with rfl | h
        · exact absurd hpn (by simp [MacAddr6.isNil])
        · have : (j, p.2) ∈ ds := by rw [← hpj, Prod.mk.eta]; exact h
          exact absurd (hnilj p.2 this) (by simp [hpn])
  · intro e s0 ds rest a1t c0 cht dm0 dmt ao0 aot hack hch hdm hao hdev hlen hlt
    have hloop := getDevicesLoop_timeout ds MAX_UNISENSOR_COUNT rest
      (Env.mk a1t cht dmt aot e.deviceTrace) [] initDeviceRes 500 hlen hdev hlt
    simp only [beginModel, recvAck, recvChannel, recvDatamode, recvAutoOff,
      hack, hch, hdm, hao, getDevicesTimeout, hloop, List.nil_append]
    refine ⟨_, rfl, ?_, rfl⟩
    simp only [List.filter_append, filter_device_replicate]
    simp

theorem begin_device_enumeration_witness :
    ∃ log,
      beginModel
        ⟨[some .RestartAP], [some 1], [some 3], [some (1, 300000)],
         [some (0, MacAddr6.nil), none]⟩
        (List.replicate 24 UniSensorDevice.empty) =
        some (.error .CrossbeamChannel, log) ∧
      log.awaited.filter (fun q => decide (q.1 = QueueKind.device)) =
        List.replicate (([(0, MacAddr6.nil)] : List (Nat × MacAddr6)).length + 1)
          (QueueKind.device, 500) ∧
      log.sensors = List.replicate 24 UniSensorDevice.empty :=
  begin_device_enumeration.2
    ⟨[some .RestartAP], [some 1], [some 3], [some (1, 300000)],
     [some (0, MacAddr6.nil), none]⟩
    (List.replicate 24 UniSensorDevice.empty)
    [(0, MacAddr6.nil)] [] [] 1 [] 3 [] (1, 300000) []
    rfl rfl rfl rfl rfl (by decide) (by decide)

theorem getDevices_total (tr : List (Option (Nat × MacAddr6)))
    (h : ∀ o ∈ tr, ∀ p, o = some p → p.1 < MAX_UNISENSOR_COUNT) :
    (getDevices tr).isSome := by
  unfold getDevices
  have : ∀ (n : Nat) (tr2 : List (Option (Nat × MacAddr6))) (res : List (Nat × MacAddr6)),
      (∀ o ∈ tr2, ∀ p, o = some p → p.1 < MAX_UNISENSOR_COUNT) →
      (getDevicesBlocking n tr2 res).isSome := by
    intro n
    induction n with
    | zero => intro tr2 res _; simp [getDevicesBlocking]
    | succ m ih =>
      intro tr2 res h2
      rcases tr2 with _ | ⟨_ | p, tl⟩
      · simp [getDevicesBlocking]
      · simp [getDevicesBlocking]
      · simp only [getDevicesBlocking]
        rw [if_pos (h2 (some p) (List.mem_cons_self _ _) p rfl)]
        exact ih tl _ (fun o ho q hq => h2 o (List.mem_cons_of_mem _ ho) q hq)
  exact this MAX_UNISENSOR_COUNT tr initDeviceRes h

/-- C10: device-table indexing by the raw wire id is unguarded.  The
operations that index the 24-entry table (`update`, `get_devices`,
`get_devices_timeout`, and `begin` through the latter) are total whenever
every received id is below 24, and for a reply carrying an id of 24 or
more the indexing is out of bounds (the model panics: `none`). -/
theorem device_table_indexing :
    (∀ (sensors : List UniSensorDevice) (d : Datagram) (rest : List (Option Datagram)),
       d.id < MAX_UNISENSOR_COUNT → (updateModel sensors (some d :: rest)).isSome) ∧
    (∀ (sensors : List UniSensorDevice) (d : Datagram) (rest : List (Option Datagram)),
       MAX_UNISENSOR_COUNT ≤ d.id → updateModel sensors (some d :: rest) = none) ∧
    (∀ (t : Nat) (e : Env),
       (∀ o ∈ e.deviceTrace, ∀ p, o = some p → p.1 < MAX_UNISENSOR_COUNT) →
       (getDevicesTimeout t e).isSome) ∧
    (∀ (t : Nat) (e : Env) (id : Nat) (addr : MacAddr6)
       (rest : List (Option (Nat × MacAddr6))),
       e.deviceTrace = some (id, addr) :: rest → MAX_UNISENSOR_COUNT ≤ id →
       getDevicesTimeout t e = none) ∧
    (∀ (tr : List (Option (Nat × MacAddr6))),
       (∀ o ∈ tr, ∀ p, o = some p → p.1 < MAX_UNISENSOR_COUNT) →
       (getDevices tr).isSome) ∧
    (∀ (id : Nat) (addr : MacAddr6) (rest : List (Option (Nat × MacAddr6))),
       MAX_UNISENSOR_COUNT ≤ id → getDevices (some (id, addr) :: rest) = none) ∧
    (∀ (e : Env) (s0 : List UniSensorDevice) (a1t : List (Option AcknowledgeType))
       (c0 : Nat) (cht : List (Option Nat)) (dm0 : Nat) (dmt : List (Option Nat))
       (ao0 : Nat × Nat) (aot : List (Option (Nat × Nat)))
       (id : Nat) (addr : MacAddr6) (rest : List (Option (Nat × MacAddr6))),
       e.ackTrace = some .RestartAP :: a1t →
       e.channelTrace = some c0 :: cht →
       e.datamodeTrace = some dm0 :: dmt →
       e.autoOffTrace = some ao0 :: aot →
       e.deviceTrace = some (id, addr) :: rest → MAX_UNISENSOR_COUNT ≤ id →
       beginModel e s0 = none) := by
  refine ⟨?_, ?_, ?_, ?_, ?_, ?_, ?_⟩
  · intro sensors d rest hlt
    simp [updateModel, if_pos hlt]
  · intro sensors d rest hge
    simp only [updateModel]
    rw [if_neg (by omega)]
  · intro t e h
    exact getDevicesLoop_total MAX_UNISENSOR_COUNT e [] initDeviceRes t h
  · intro t e id addr rest htr hid
    exact getDevicesLoop_oob t MAX_UNISENSOR_COUNT e [] initDeviceRes id addr rest htr hid
      (by decide)
  · exact getDevices_total
  · intro id addr rest hid
    simp only [getDevices, MAX_UNISENSOR_COUNT, getDevicesBlocking]
    rw [if_neg (by simp only [MAX_UNISENSOR_COUNT] at hid; omega)]
  · intro e s0 a1t c0 cht dm0 dmt ao0 aot id addr rest hack hch hdm hao hdev hid
    have hloop : getDevicesLoop 500 MAX_UNISENSOR_COUNT (Env.mk a1t cht dmt aot e.deviceTrace)
        [] initDeviceRes = none :=
      getDevicesLoop_oob 500 MAX_UNISENSOR_COUNT _ [] initDeviceRes id addr rest hdev hid
        (by decide)
    simp only [beginModel, recvAck, recvChannel, recvDatamode, recvAutoOff,
      hack, hch, hdm, hao, getDevicesTimeout, hloop]

theorem device_table_indexing_witness :
    (updateModel [] (some (Datagram.mk 3 0 [] 0 0) :: [])).isSome ∧
    updateModel [] (some (Datagram.mk 24 0 [] 0 0) :: []) = none ∧
    getDevicesTimeout 500 ⟨[], [], [], [], [some (24, MacAddr6.nil)]⟩ = none ∧
    getDevices [some (24, MacAddr6.nil)] = none :=
  ⟨device_table_indexing.1 [] (Datagram.mk 3 0 [] 0 0) [] (by decide),
   device_table_indexing.2.1 [] (Datagram.mk 24 0 [] 0 0) [] (by decide),
   device_table_indexing.2.2.2.1 500 ⟨[], [], [], [], [some (24, MacAddr6.nil)]⟩
     24 MacAddr6.nil [] rfl (by decide),
   device_table_indexing.2.2.2.2.2.1 24 MacAddr6.nil [] (by decide)⟩

end Unimotion
